import Mathlib

/-!
# Display dispatch of `HWCSession` (composer3/hwc_session.h)

A shallow embedding of the two dispatch templates of `sdm::HWCSession`,
`CallDisplayFunction` and `CallLayerFunction`, together with the session
fields they read: the slot table `hwc_display_`, the alias map
`map_hwc_display_` and the flags `power_state_transition_`.

Conventions of the embedding.

* `HWCCallbacks::kNumDisplays` is declared in `hwc_callbacks.h`; it is a
  parameter `kNumDisplays` here. The arrays of that length are functions on
  `Fin kNumDisplays`, so every subscript has to come with a bound, and a
  subscript without one is a `Fault`.
* A call is run to an `Outcome`: the returned status, the session fields and
  the state of the objects behind the pointers after the call, and the trace
  of what the call did (locks taken and dropped, fields read, members invoked).
* Undefined behaviour of the C++ (dereferencing `end()`, a subscript past the
  array) is an explicit `Except.error`.
-/

namespace sdm

/-- Modelled from the spec: the client-visible display id. The typedef of `Display` is not in
`hwc_session.h`; ids are unsigned ("outside [0, N)" leaves only ids `≥ N`), so they are naturals. -/
abbrev Display := Nat

/-- Modelled from the spec: the layer id handed to `GetHWCLayer`; the typedef of `LayerId` is not
in `hwc_session.h`. -/
abbrev LayerId := Nat

namespace HWC3

/-- Modelled from the spec: the fixed error taxonomy of §7. The enumeration `HWC3::Error` is
declared outside `hwc_session.h`, which names `BadDisplay` and `BadLayer` only. -/
inductive Error where
  | None
  | BadDisplay
  | BadLayer
  | Unsupported
  | NoResources
  | BadParameter
  | TransitionInProgress
  | NotValidated
  deriving DecidableEq, Repr

end HWC3

/-- The two per-display `Locker` arrays the dispatch templates use:
`power_state_[i]` and `locker_[i]`. -/
inductive Lock where
  | power_state_ (i : Nat)
  | locker_ (i : Nat)
  deriving DecidableEq, Repr

/-- The accesses a dispatch call makes to the shared fields of the session, each with the
subscript or key it uses. -/
inductive Access where
  /-- Construction of a `SCOPE_LOCK` guard. -/
  | acquire (l : Lock)
  /-- Destruction of a `SCOPE_LOCK` guard at the end of its block. -/
  | release (l : Lock)
  /-- A read of `power_state_transition_[i]`. -/
  | read_power_state_transition_ (i : Nat)
  /-- The lookup `map_hwc_display_.find(key)`. -/
  | find_map_hwc_display_ (key : Nat)
  /-- A read of `hwc_display_[i]`. -/
  | read_hwc_display_ (i : Nat)
  deriving DecidableEq, Repr

/-- What a dispatch call does, in program order. `D` is the type of display objects
(`HWCDisplay *`), `L` of layer objects (`HWCLayer *`), `A` of the forwarded arguments. -/
inductive Event (D L A : Type) where
  /-- An access to a field of the session. -/
  | access (a : Access)
  /-- The call `obj->GetHWCLayer(layer)`. -/
  | GetHWCLayer (obj : D) (layer : LayerId)
  /-- The call `(hwc_display->*member)(args...)`. -/
  | invoke_display (obj : D) (args : A)
  /-- The call `(hwc_layer->*member)(args...)`. -/
  | invoke_layer (lay : L) (args : A)
  deriving DecidableEq, Repr

/-- The points where the C++ has no defined behaviour. -/
inductive Fault where
  /-- The expression `map_hwc_display_.find(display)->second` with no entry for `display`. -/
  | find_end (display : Display)
  /-- The subscripts `locker_[display]`, `hwc_display_[display]` with `display` past the arrays. -/
  | out_of_range (display : Display)
  deriving DecidableEq, Repr

/-- The fields of `HWCSession` that the dispatch templates read. -/
structure HWCSession (kNumDisplays : Nat) (D : Type) where
  /-- The array `HWCDisplay *hwc_display_[kNumDisplays]`; `none` is `nullptr`. -/
  hwc_display_ : Fin kNumDisplays → Option D
  /-- The map `std::map<Display, Display> map_hwc_display_` (real and dummy display pairs);
  `none` is `find` returning `end()`. -/
  map_hwc_display_ : Display → Option Display
  /-- The array `bool power_state_transition_[kNumDisplays]`. -/
  power_state_transition_ : Fin kNumDisplays → Bool

/-- The result of a dispatch call that has defined behaviour. -/
structure Outcome (kNumDisplays : Nat) (D L A W : Type) where
  /-- The returned `HWC3::Error`. -/
  status : HWC3.Error
  /-- The session fields after the call. -/
  session : HWCSession kNumDisplays D
  /-- The state of the display and layer objects after the call. -/
  world : W
  /-- The events of the call, in program order. -/
  trace : List (Event D L A)

namespace HWCSession

variable {kNumDisplays : Nat} {D L A W : Type}

/-- The block of both templates that is commented `Power state transition start.`:
```
{
  SCOPE_LOCK(power_state_[display]);
  if (power_state_transition_[display]) {
    display = map_hwc_display_.find(display)->second;
  }
}
```
It yields the new value of `display` and the events of the block. The guard was built on
`power_state_[display]` for the value `display` had on entry, and that lock is the one released. -/
def PowerStateTransitionStart (s : HWCSession kNumDisplays D) (display : Fin kNumDisplays) :
    Except Fault (Display × List Access) :=
  if s.power_state_transition_ display then
    match s.map_hwc_display_ display.val with
    | some second =>
      .ok (second, [.acquire (.power_state_ display.val),
                    .read_power_state_transition_ display.val,
                    .find_map_hwc_display_ display.val,
                    .release (.power_state_ display.val)])
    | none => .error (.find_end display.val)
  else
    .ok (display.val, [.acquire (.power_state_ display.val),
                       .read_power_state_transition_ display.val,
                       .release (.power_state_ display.val)])

/-- The template `HWCSession::CallDisplayFunction(display, member, args...)`.
A member function of `HWCDisplay` is a function of the object, the arguments and the state `W` of
the objects, returning its status and the new state. -/
def CallDisplayFunction (s : HWCSession kNumDisplays D) (display : Display)
    (member : D → A → W → HWC3.Error × W) (args : A) (w : W) :
    Except Fault (Outcome kNumDisplays D L A W) :=
  if h : kNumDisplays ≤ display then
    .ok ⟨.BadDisplay, s, w, []⟩
  else
    match s.PowerStateTransitionStart ⟨display, Nat.lt_of_not_le h⟩ with
    | .error f => .error f
    | .ok (display, t) =>
      if h2 : display < kNumDisplays then
        match s.hwc_display_ ⟨display, h2⟩ with
        | some hwc_display =>
          .ok ⟨(member hwc_display args w).1, s, (member hwc_display args w).2,
               t.map .access ++ [.access (.acquire (.locker_ display)),
                     .access (.read_hwc_display_ display),
                     .access (.read_hwc_display_ display),
                     .invoke_display hwc_display args,
                     .access (.release (.locker_ display))]⟩
        | none =>
          .ok ⟨.BadDisplay, s, w,
               t.map .access ++ [.access (.acquire (.locker_ display)),
                     .access (.read_hwc_display_ display),
                     .access (.release (.locker_ display))]⟩
      else
        .error (.out_of_range display)

/-- The template `HWCSession::CallLayerFunction(display, layer, member, args...)`.
`GetHWCLayer` is `HWCDisplay::GetHWCLayer`, declared in `hwc_display.h`: the layer of that id on
the display, or `none` for `nullptr`. -/
def CallLayerFunction (GetHWCLayer : D → LayerId → W → Option L)
    (s : HWCSession kNumDisplays D) (display : Display) (layer : LayerId)
    (member : L → A → W → HWC3.Error × W) (args : A) (w : W) :
    Except Fault (Outcome kNumDisplays D L A W) :=
  if h : kNumDisplays ≤ display then
    .ok ⟨.BadDisplay, s, w, []⟩
  else
    match s.PowerStateTransitionStart ⟨display, Nat.lt_of_not_le h⟩ with
    | .error f => .error f
    | .ok (display, t) =>
      if h2 : display < kNumDisplays then
        match s.hwc_display_ ⟨display, h2⟩ with
        | some hwc_display =>
          match GetHWCLayer hwc_display layer w with
          | some hwc_layer =>
            .ok ⟨(member hwc_layer args w).1, s, (member hwc_layer args w).2,
                 t.map .access ++ [.access (.acquire (.locker_ display)),
                       .access (.read_hwc_display_ display),
                       .access (.read_hwc_display_ display),
                       .GetHWCLayer hwc_display layer,
                       .invoke_layer hwc_layer args,
                       .access (.release (.locker_ display))]⟩
          | none =>
            .ok ⟨.BadLayer, s, w,
                 t.map .access ++ [.access (.acquire (.locker_ display)),
                       .access (.read_hwc_display_ display),
                       .access (.read_hwc_display_ display),
                       .GetHWCLayer hwc_display layer,
                       .access (.release (.locker_ display))]⟩
        | none =>
          .ok ⟨.BadDisplay, s, w,
               t.map .access ++ [.access (.acquire (.locker_ display)),
                     .access (.read_hwc_display_ display),
                     .access (.release (.locker_ display))]⟩
      else
        .error (.out_of_range display)

/-- The slot a call on `display` addresses: the value of `display` when the block commented
`Power state transition start.` is left, if the block has defined behaviour. -/
def resolvedSlot (s : HWCSession kNumDisplays D) (display : Fin kNumDisplays) : Option Display :=
  match s.PowerStateTransitionStart display with
  | .ok (r, _) => some r
  | .error _ => none

/-- The alias of slot `display` can be followed: either no power-state transition is in progress
on the slot, or `map_hwc_display_` has an entry for it whose target is below `kNumDisplays`. -/
def aliasUsable (s : HWCSession kNumDisplays D) (display : Fin kNumDisplays) : Bool :=
  !s.power_state_transition_ display ||
    (match s.map_hwc_display_ display.val with
     | some a => decide (a < kNumDisplays)
     | none => false)

end HWCSession

/-! ## Observations on traces -/

section Traces

variable {D L A : Type}

/-- The subscripts `i` of the operation locks `locker_[i]` a trace acquires, in order. -/
def opLocks : List (Event D L A) → List Nat
  | [] => []
  | .access (.acquire (.locker_ i)) :: es => i :: opLocks es
  | _ :: es => opLocks es

/-- The subscripts `i` of the reads of `hwc_display_[i]` in a trace, in order. -/
def slotsRead : List (Event D L A) → List Nat
  | [] => []
  | .access (.read_hwc_display_ i) :: es => i :: slotsRead es
  | _ :: es => slotsRead es

/-- The keys looked up in `map_hwc_display_` in a trace, in order. -/
def aliasLookups : List (Event D L A) → List Nat
  | [] => []
  | .access (.find_map_hwc_display_ k) :: es => k :: aliasLookups es
  | _ :: es => aliasLookups es

/-- The invocations of a display member in a trace: the object and the arguments of each. -/
def displaysInvoked : List (Event D L A) → List (D × A)
  | [] => []
  | .invoke_display obj args :: es => (obj, args) :: displaysInvoked es
  | _ :: es => displaysInvoked es

/-- The invocations of a layer member in a trace: the layer and the arguments of each. -/
def layersInvoked : List (Event D L A) → List (L × A)
  | [] => []
  | .invoke_layer lay args :: es => (lay, args) :: layersInvoked es
  | _ :: es => layersInvoked es

/-- The layer lookups `obj->GetHWCLayer(layer)` in a trace. -/
def layersLooked : List (Event D L A) → List (D × LayerId)
  | [] => []
  | .GetHWCLayer obj layer :: es => (obj, layer) :: layersLooked es
  | _ :: es => layersLooked es

/-- The lock events of a trace (acquisitions and releases), in order. -/
def lockEvents : List (Event D L A) → List Access
  | [] => []
  | .access (.acquire l) :: es => .acquire l :: lockEvents es
  | .access (.release l) :: es => .release l :: lockEvents es
  | _ :: es => lockEvents es

/-- Whether a lock is one of `power_state_[]`. -/
def Lock.isPowerState : Lock → Bool
  | .power_state_ _ => true
  | .locker_ _ => false

/-- Whether a lock is one of `locker_[]`. -/
def Lock.isOperation : Lock → Bool
  | .power_state_ _ => false
  | .locker_ _ => true

/-- Whether an event is the invocation of the requested member function. -/
def Event.isInvoke : Event D L A → Bool
  | .invoke_display _ _ => true
  | .invoke_layer _ _ => true
  | _ => false

/-- The locks held after an event, from the locks held before it. -/
def heldAfter (held : List Lock) : Event D L A → List Lock
  | .access (.acquire l) => l :: held
  | .access (.release l) => held.erase l
  | _ => held

/-- The discipline of the two lock levels, checked along a trace that starts with the locks
`held`: at every point of the trace no power-state lock is held together with an operation lock,
and the requested member function is never invoked while a power-state lock is held. -/
def LockDiscipline : List Lock → List (Event D L A) → Bool
  | held, [] => !(held.any Lock.isPowerState && held.any Lock.isOperation)
  | held, e :: es =>
    !(held.any Lock.isPowerState && held.any Lock.isOperation) &&
    !(e.isInvoke && held.any Lock.isPowerState) &&
    LockDiscipline (heldAfter held e) es

end Traces

/-! ## Sample sessions -/

/-- A session of three slots in which slot 0 is in a power-state transition: display object 100
is bound at slot 0, slot 1 is unbound, and slot 2 holds the dummy display 102 that slot 0 is
paired with in `map_hwc_display_`. -/
def sampleSession : HWCSession 3 Nat where
  hwc_display_ := fun i => if i.val = 0 then some 100 else if i.val = 2 then some 102 else none
  map_hwc_display_ := fun d => if d = 0 then some 2 else none
  power_state_transition_ := fun i => decide (i.val = 0)

/-- The session `sampleSession` with the pairs of `map_hwc_display_` removed. -/
def sampleSessionNoAlias : HWCSession 3 Nat :=
  { sampleSession with map_hwc_display_ := fun _ => none }

/-- The session `sampleSession` with every slot paired with slot 7. -/
def sampleSessionFarAlias : HWCSession 3 Nat :=
  { sampleSession with map_hwc_display_ := fun _ => some 7 }

/-- The session `sampleSession` with every slot paired with itself. -/
def sampleSessionSelfAlias : HWCSession 3 Nat :=
  { sampleSession with map_hwc_display_ := fun d => some d }

/-- A display member function for the samples: it fails on argument `0` and otherwise counts
the call in the state of the objects. -/
def sampleMember (_obj : Nat) (args : Nat) (w : Nat) : HWC3.Error × Nat :=
  if args = 0 then (.BadParameter, w) else (.None, w + 1)

/-- A layer table for the samples: every display has the layers `0` and `1`. -/
def sampleGetHWCLayer (obj : Nat) (layer : LayerId) (_w : Nat) : Option Nat :=
  if layer < 2 then some (10 * obj + layer) else none

/-! ## Further observations on traces -/

section Traces

variable {kNumDisplays : Nat} {D L A W : Type}

/-- The subscripts `i` of the reads of `power_state_transition_[i]` in a trace, in order. -/
def flagsRead : List (Event D L A) → List Nat
  | [] => []
  | .access (.read_power_state_transition_ i) :: es => i :: flagsRead es
  | _ :: es => flagsRead es

/-- Whether an event belongs to the part of a call that runs after the operation lock is
taken: the check of `hwc_display_[display]`, the layer lookup and the invocation. -/
def Event.isGuarded : Event D L A → Bool
  | .access (.read_hwc_display_ _) => true
  | .GetHWCLayer _ _ => true
  | .invoke_display _ _ => true
  | .invoke_layer _ _ => true
  | _ => false

/-- Whether the lock `l` is held at every guarded event of a trace that starts with the locks
`held`. -/
def HeldThroughout (l : Lock) : List Lock → List (Event D L A) → Bool
  | _, [] => true
  | held, e :: es => (!e.isGuarded || held.contains l) && HeldThroughout l (heldAfter held e) es

/-- The locks still held at the end of a trace that starts with the locks `held`. -/
def heldAtReturn : List Lock → List (Event D L A) → List Lock
  | held, [] => held
  | held, e :: es => heldAtReturn (heldAfter held e) es

/-- What a caller can observe of a call: the returned status, the state of the objects and the
events. -/
def Outcome.observed (out : Outcome kNumDisplays D L A W) : HWC3.Error × W × List (Event D L A) :=
  (out.status, out.world, out.trace)

end Traces

/-! ## Slot metadata and capture requests -/

namespace HWCSession

/-- The struct `HWCSession::DisplayMapInfo`. The enumeration `sdm::DisplayType` is declared in
`core/display_interface.h`; it is the parameter `DisplayType` here, and `sdm_id` is an
`int32_t`. -/
structure DisplayMapInfo (DisplayType : Type) where
  /-- The mapped sf id for this display. -/
  client_id : Display
  /-- The sdm id for this display. -/
  sdm_id : Int
  /-- The sdm display type. -/
  disp_type : DisplayType
  /-- Whether the display will show a test pattern. -/
  test_pattern : Bool

/-- A default-constructed `DisplayMapInfo`, from the default member initializers
`client_id = HWCCallbacks::kNumDisplays`, `sdm_id = -1`, `disp_type = kDisplayTypeMax`,
`test_pattern = false`. The constants `kNumDisplays` and `kDisplayTypeMax` are parameters. -/
def DisplayMapInfo.ctor {DisplayType : Type} (kNumDisplays : Nat)
    (kDisplayTypeMax : DisplayType) : DisplayMapInfo DisplayType where
  client_id := kNumDisplays
  sdm_id := -1
  disp_type := kDisplayTypeMax
  test_pattern := false

/-- The member function `DisplayMapInfo::Reset`:
```
// Do not clear client id
sdm_id = -1;
disp_type = kDisplayTypeMax;
test_pattern = false;
```
-/
def DisplayMapInfo.Reset {DisplayType : Type} (kDisplayTypeMax : DisplayType)
    (m : DisplayMapInfo DisplayType) : DisplayMapInfo DisplayType :=
  { m with sdm_id := -1, disp_type := kDisplayTypeMax, test_pattern := false }

namespace CWB

/-- The enumeration `CWB::CWBNotifiedStatus`. -/
inductive CWBNotifiedStatus where
  | kCwbNotifiedFailure
  | kCwbNotifiedSuccess
  | kCwbNotifiedNone
  deriving DecidableEq, Repr

/-- The values of the enumerators: `kCwbNotifiedFailure = -1`, and the two that follow count
on from it. -/
def CWBNotifiedStatus.value : CWBNotifiedStatus → Int
  | .kCwbNotifiedFailure => -1
  | .kCwbNotifiedSuccess => 0
  | .kCwbNotifiedNone => 1

/-- The struct `CWB::QueueNode`. The types of the callback (`std::weak_ptr<ConfigCallback>`), of
the capture configuration (`CwbConfig`) and of the buffer handle are parameters; `handle_id` is
a `uint64_t`. -/
structure QueueNode (Callback CwbConfig Buffer : Type) where
  callback : Callback
  cwb_config : CwbConfig
  buffer : Buffer
  display_type : Display
  handle_id : Nat
  notified_status : CWBNotifiedStatus
  request_completed : Bool

/-- The constructor `QueueNode(cb, cwb_conf, buf, disp_type, buf_id)`: the five members of the
initializer list take the arguments, and the other two their default member initializers
`notified_status = kCwbNotifiedNone` and `request_completed = false`. -/
def QueueNode.ctor {Callback CwbConfig Buffer : Type} (cb : Callback)
    (cwb_conf : CwbConfig) (buf : Buffer) (disp_type : Display) (buf_id : Nat) :
    QueueNode Callback CwbConfig Buffer where
  callback := cb
  cwb_config := cwb_conf
  buffer := buf
  display_type := disp_type
  handle_id := buf_id
  notified_status := .kCwbNotifiedNone
  request_completed := false

end CWB

end HWCSession

/-! ## Further sample sessions -/

/-- A session of three slots with two power-state transitions in progress: slot 0 is paired with
slot 2 and slot 2 with slot 1; displays 100, 101 and 102 are bound at the slots 0, 1 and 2. -/
def sampleSessionChain : HWCSession 3 Nat where
  hwc_display_ := fun i => some (100 + i.val)
  map_hwc_display_ := fun d => if d = 0 then some 2 else if d = 2 then some 1 else none
  power_state_transition_ := fun i => decide (i.val = 0 ∨ i.val = 2)

/-- A session that agrees with `sampleSession` on the flag and the pair of slot 0 and on the
display bound at slot 2, and differs from it on the rest: slot 0 is unbound, display 55 is bound
at slot 1, and slot 1 is in a power-state transition and paired with slot 0. -/
def sampleSessionElsewhere : HWCSession 3 Nat where
  hwc_display_ := fun i => if i.val = 1 then some 55 else if i.val = 2 then some 102 else none
  map_hwc_display_ := fun d => if d = 0 then some 2 else if d = 1 then some 0 else none
  power_state_transition_ := fun i => decide (i.val = 0 ∨ i.val = 1)

/-- A session of three slots with no display bound to any slot, no pair in the map and no
power-state transition in progress. -/
def sampleSessionUnbound : HWCSession 3 Nat where
  hwc_display_ := fun _ => none
  map_hwc_display_ := fun _ => none
  power_state_transition_ := fun _ => false

/-! ## The session registry -/

namespace HWCSession

variable {kNumDisplays : Nat} {D : Type}

/-- The fields of a newly constructed `HWCSession`, from their default member initializers
`hwc_display_[kNumDisplays] = {nullptr}`, `power_state_transition_[kNumDisplays] = {}` and the
empty `map_hwc_display_`. -/
def ctor : HWCSession kNumDisplays D where
  hwc_display_ := fun _ => none
  map_hwc_display_ := fun _ => none
  power_state_transition_ := fun _ => false

/-- Modelled from the spec: the operations of the session that write the three fields the
dispatch templates read. Their code is in `hwc_session.cpp` (the hotplug handlers,
`CreateDummyDisplay`, the power-mode path); `hwc_session.h` has their declarations only.
* `bind`, `unbind`: §4.2, the coordinator "creates or destroys slots"; §3, "at most N slots
  exist".
* `pair`: §3, a slot gets an alias target, which "must reference a valid, different slot"; the
  field comment of `map_hwc_display_` is "Real and dummy display pairs".
* `power_transition_begin`: §4.3, "While pending, the slot's power-state flag is set,
  redirecting concurrent operations to the dummy alias".
* `power_transition_end`: §4.3, "Completion clears the flag". -/
inductive RegistryOp (D : Type) where
  | bind (slot : Display) (obj : D)
  | unbind (slot : Display)
  | pair (slot target : Display)
  | power_transition_begin (slot : Display)
  | power_transition_end (slot : Display)

/-- Modelled from the spec: the effect of a registry operation on the session fields, absent
from `hwc_session.h` like the operations themselves; `none` when the spec rules the operation
out. A slot is one of the `kNumDisplays` slots; an alias target is a valid slot other than the
slot it stands in for (§3); a power-state transition begins on a slot that has a dummy alias to
redirect to (§3, §4.3). -/
def RegistryOp.apply (s : HWCSession kNumDisplays D) :
    RegistryOp D → Option (HWCSession kNumDisplays D)
  | .bind slot obj =>
    if slot < kNumDisplays then
      some { s with hwc_display_ := fun i => if i.val = slot then some obj else s.hwc_display_ i }
    else none
  | .unbind slot =>
    if slot < kNumDisplays then
      some { s with hwc_display_ := fun i => if i.val = slot then none else s.hwc_display_ i }
    else none
  | .pair slot target =>
    if slot < kNumDisplays ∧ target < kNumDisplays ∧ target ≠ slot then
      some { s with
        map_hwc_display_ := fun k => if k = slot then some target else s.map_hwc_display_ k }
    else none
  | .power_transition_begin slot =>
    if slot < kNumDisplays ∧ (s.map_hwc_display_ slot).isSome = true then
      some { s with
        power_state_transition_ := fun i =>
          if i.val = slot then true else s.power_state_transition_ i }
    else none
  | .power_transition_end slot =>
    if slot < kNumDisplays then
      some { s with
        power_state_transition_ := fun i =>
          if i.val = slot then false else s.power_state_transition_ i }
    else none

/-- Modelled from the spec: a run of registry operations from a session, in order; `none` as
soon as one of them is ruled out. -/
def runRegistryOps :
    List (RegistryOp D) → HWCSession kNumDisplays D → Option (HWCSession kNumDisplays D)
  | [], s => some s
  | op :: ops, s =>
    match op.apply s with
    | some s2 => runRegistryOps ops s2
    | none => none

end HWCSession

end sdm

/-! ## The dispatch templates, case by case -/

namespace sdm

namespace HWCSession

variable {kNumDisplays : Nat} {D L A W : Type}

/-- The block on a slot with no power-state transition in progress keeps `display`. -/
theorem PowerStateTransitionStart_clear (s : HWCSession kNumDisplays D) (d : Fin kNumDisplays)
    (hf : s.power_state_transition_ d = false) :
    s.PowerStateTransitionStart d =
      .ok (d.val, [.acquire (.power_state_ d.val), .read_power_state_transition_ d.val,
                   .release (.power_state_ d.val)]) := by
  simp [PowerStateTransitionStart, hf]

/-- The block on a slot in a power-state transition replaces `display` by the entry of the map. -/
theorem PowerStateTransitionStart_set (s : HWCSession kNumDisplays D) (d : Fin kNumDisplays)
    (a : Display) (hf : s.power_state_transition_ d = true)
    (hm : s.map_hwc_display_ d.val = some a) :
    s.PowerStateTransitionStart d =
      .ok (a, [.acquire (.power_state_ d.val), .read_power_state_transition_ d.val,
               .find_map_hwc_display_ d.val, .release (.power_state_ d.val)]) := by
  simp [PowerStateTransitionStart, hf, hm]

/-- The block on a slot in a power-state transition with no entry in the map is undefined. -/
theorem PowerStateTransitionStart_find_end (s : HWCSession kNumDisplays D)
    (d : Fin kNumDisplays) (hf : s.power_state_transition_ d = true)
    (hm : s.map_hwc_display_ d.val = none) :
    s.PowerStateTransitionStart d = .error (.find_end d.val) := by
  simp [PowerStateTransitionStart, hf, hm]

/-- The slot a call resolves to, read off the two fields the block consults. -/
theorem resolvedSlot_eq_some_iff (s : HWCSession kNumDisplays D) (d : Fin kNumDisplays)
    (r : Display) :
    s.resolvedSlot d = some r ↔
      (s.power_state_transition_ d = false ∧ r = d.val) ∨
      (s.power_state_transition_ d = true ∧ s.map_hwc_display_ d.val = some r) := by
  cases hf : s.power_state_transition_ d
  · simp [resolvedSlot, PowerStateTransitionStart_clear s d hf, eq_comm]
  · cases hm : s.map_hwc_display_ d.val with
    | none => simp [resolvedSlot, PowerStateTransitionStart_find_end s d hf hm]
    | some a => simp [resolvedSlot, PowerStateTransitionStart_set s d a hf hm]

/-- A resolved slot comes with the events of the block that resolved it. -/
theorem PowerStateTransitionStart_of_resolvedSlot (s : HWCSession kNumDisplays D)
    (d : Fin kNumDisplays) (r : Display) (hres : s.resolvedSlot d = some r) :
    ∃ t, s.PowerStateTransitionStart d = .ok (r, t) := by
  unfold resolvedSlot at hres
  split at hres
  · rename_i r2 t heq
    exact ⟨t, by rw [heq]; simp at hres; rw [hres]⟩
  · simp at hres

/-- The template `CallDisplayFunction` past the block, on a slot in range. -/
theorem CallDisplayFunction_of_block (s : HWCSession kNumDisplays D) (d r : Display)
    (member : D → A → W → HWC3.Error × W) (args : A) (w : W) (t : List Access)
    (h : d < kNumDisplays) (hb : s.PowerStateTransitionStart ⟨d, h⟩ = .ok (r, t))
    (hr : r < kNumDisplays) :
    (s.CallDisplayFunction d member args w : Except Fault (Outcome kNumDisplays D L A W)) =
      match s.hwc_display_ ⟨r, hr⟩ with
      | some obj =>
        .ok ⟨(member obj args w).1, s, (member obj args w).2,
             t.map .access ++ [.access (.acquire (.locker_ r)), .access (.read_hwc_display_ r),
               .access (.read_hwc_display_ r), .invoke_display obj args,
               .access (.release (.locker_ r))]⟩
      | none =>
        .ok ⟨.BadDisplay, s, w,
             t.map .access ++ [.access (.acquire (.locker_ r)), .access (.read_hwc_display_ r),
               .access (.release (.locker_ r))]⟩ := by
  have hn : ¬ kNumDisplays ≤ d := Nat.not_le.mpr h
  unfold CallDisplayFunction
  rw [dif_neg hn]
  simp only [hb, dif_pos hr]

/-- The template `CallLayerFunction` past the block, on a slot in range. -/
theorem CallLayerFunction_of_block (G : D → LayerId → W → Option L)
    (s : HWCSession kNumDisplays D) (d r : Display) (layer : LayerId)
    (member : L → A → W → HWC3.Error × W) (args : A) (w : W) (t : List Access)
    (h : d < kNumDisplays) (hb : s.PowerStateTransitionStart ⟨d, h⟩ = .ok (r, t))
    (hr : r < kNumDisplays) :
    CallLayerFunction G s d layer member args w =
      match s.hwc_display_ ⟨r, hr⟩ with
      | some obj =>
        match G obj layer w with
        | some lay =>
          .ok ⟨(member lay args w).1, s, (member lay args w).2,
               t.map .access ++ [.access (.acquire (.locker_ r)), .access (.read_hwc_display_ r),
                 .access (.read_hwc_display_ r), .GetHWCLayer obj layer, .invoke_layer lay args,
                 .access (.release (.locker_ r))]⟩
        | none =>
          .ok ⟨.BadLayer, s, w,
               t.map .access ++ [.access (.acquire (.locker_ r)), .access (.read_hwc_display_ r),
                 .access (.read_hwc_display_ r), .GetHWCLayer obj layer,
                 .access (.release (.locker_ r))]⟩
      | none =>
        .ok ⟨.BadDisplay, s, w,
             t.map .access ++ [.access (.acquire (.locker_ r)), .access (.read_hwc_display_ r),
               .access (.release (.locker_ r))]⟩ := by
  have hn : ¬ kNumDisplays ≤ d := Nat.not_le.mpr h
  unfold CallLayerFunction
  rw [dif_neg hn]
  simp only [hb, dif_pos hr]

/-- The template `CallDisplayFunction` on a resolved slot with a bound display object. -/
theorem CallDisplayFunction_bound (s : HWCSession kNumDisplays D) (d r : Display)
    (member : D → A → W → HWC3.Error × W) (args : A) (w : W) (t : List Access) (obj : D)
    (h : d < kNumDisplays) (hb : s.PowerStateTransitionStart ⟨d, h⟩ = .ok (r, t))
    (hr : r < kNumDisplays) (hd : s.hwc_display_ ⟨r, hr⟩ = some obj) :
    (s.CallDisplayFunction d member args w : Except Fault (Outcome kNumDisplays D L A W)) =
      .ok ⟨(member obj args w).1, s, (member obj args w).2,
           t.map .access ++ [.access (.acquire (.locker_ r)), .access (.read_hwc_display_ r),
             .access (.read_hwc_display_ r), .invoke_display obj args,
             .access (.release (.locker_ r))]⟩ := by
  rw [CallDisplayFunction_of_block s d r member args w t h hb hr]
  simp only [hd]

/-- The template `CallDisplayFunction` on a resolved slot with no display object. -/
theorem CallDisplayFunction_unbound (s : HWCSession kNumDisplays D) (d r : Display)
    (member : D → A → W → HWC3.Error × W) (args : A) (w : W) (t : List Access)
    (h : d < kNumDisplays) (hb : s.PowerStateTransitionStart ⟨d, h⟩ = .ok (r, t))
    (hr : r < kNumDisplays) (hd : s.hwc_display_ ⟨r, hr⟩ = none) :
    (s.CallDisplayFunction d member args w : Except Fault (Outcome kNumDisplays D L A W)) =
      .ok ⟨.BadDisplay, s, w,
           t.map .access ++ [.access (.acquire (.locker_ r)), .access (.read_hwc_display_ r),
             .access (.release (.locker_ r))]⟩ := by
  rw [CallDisplayFunction_of_block s d r member args w t h hb hr]
  simp only [hd]

/-- The template `CallLayerFunction` on a resolved slot with no display object. -/
theorem CallLayerFunction_unbound (G : D → LayerId → W → Option L)
    (s : HWCSession kNumDisplays D) (d r : Display) (layer : LayerId)
    (member : L → A → W → HWC3.Error × W) (args : A) (w : W) (t : List Access)
    (h : d < kNumDisplays) (hb : s.PowerStateTransitionStart ⟨d, h⟩ = .ok (r, t))
    (hr : r < kNumDisplays) (hd : s.hwc_display_ ⟨r, hr⟩ = none) :
    CallLayerFunction G s d layer member args w =
      .ok ⟨.BadDisplay, s, w,
           t.map .access ++ [.access (.acquire (.locker_ r)), .access (.read_hwc_display_ r),
             .access (.release (.locker_ r))]⟩ := by
  rw [CallLayerFunction_of_block G s d r layer member args w t h hb hr]
  simp only [hd]

/-- The template `CallLayerFunction` on a bound display that has no layer of the given id. -/
theorem CallLayerFunction_no_layer (G : D → LayerId → W → Option L)
    (s : HWCSession kNumDisplays D) (d r : Display) (layer : LayerId)
    (member : L → A → W → HWC3.Error × W) (args : A) (w : W) (t : List Access) (obj : D)
    (h : d < kNumDisplays) (hb : s.PowerStateTransitionStart ⟨d, h⟩ = .ok (r, t))
    (hr : r < kNumDisplays) (hd : s.hwc_display_ ⟨r, hr⟩ = some obj)
    (hl : G obj layer w = none) :
    CallLayerFunction G s d layer member args w =
      .ok ⟨.BadLayer, s, w,
           t.map .access ++ [.access (.acquire (.locker_ r)), .access (.read_hwc_display_ r),
             .access (.read_hwc_display_ r), .GetHWCLayer obj layer,
             .access (.release (.locker_ r))]⟩ := by
  rw [CallLayerFunction_of_block G s d r layer member args w t h hb hr]
  simp only [hd, hl]

/-- The template `CallLayerFunction` on a bound display that has the layer of the given id. -/
theorem CallLayerFunction_layer (G : D → LayerId → W → Option L)
    (s : HWCSession kNumDisplays D) (d r : Display) (layer : LayerId)
    (member : L → A → W → HWC3.Error × W) (args : A) (w : W) (t : List Access) (obj : D)
    (lay : L) (h : d < kNumDisplays) (hb : s.PowerStateTransitionStart ⟨d, h⟩ = .ok (r, t))
    (hr : r < kNumDisplays) (hd : s.hwc_display_ ⟨r, hr⟩ = some obj)
    (hl : G obj layer w = some lay) :
    CallLayerFunction G s d layer member args w =
      .ok ⟨(member lay args w).1, s, (member lay args w).2,
           t.map .access ++ [.access (.acquire (.locker_ r)), .access (.read_hwc_display_ r),
             .access (.read_hwc_display_ r), .GetHWCLayer obj layer, .invoke_layer lay args,
             .access (.release (.locker_ r))]⟩ := by
  rw [CallLayerFunction_of_block G s d r layer member args w t h hb hr]
  simp only [hd, hl]

/-- The events of the block, whichever way it resolves the slot. -/
theorem PowerStateTransitionStart_trace (s : HWCSession kNumDisplays D) (d : Fin kNumDisplays)
    (r : Display) (t : List Access) (hb : s.PowerStateTransitionStart d = .ok (r, t)) :
    t = [.acquire (.power_state_ d.val), .read_power_state_transition_ d.val,
         .release (.power_state_ d.val)] ∨
    t = [.acquire (.power_state_ d.val), .read_power_state_transition_ d.val,
         .find_map_hwc_display_ d.val, .release (.power_state_ d.val)] := by
  cases hf : s.power_state_transition_ d
  · rw [PowerStateTransitionStart_clear s d hf] at hb
    simp at hb
    exact Or.inl hb.2.symm
  · cases hm : s.map_hwc_display_ d.val with
    | none =>
      rw [PowerStateTransitionStart_find_end s d hf hm] at hb
      cases hb
    | some a =>
      rw [PowerStateTransitionStart_set s d a hf hm] at hb
      simp at hb
      exact Or.inr hb.2.symm

/-- A slot whose alias can be followed resolves to a slot in range. -/
theorem resolvedSlot_of_aliasUsable (s : HWCSession kNumDisplays D) (d : Fin kNumDisplays)
    (hu : s.aliasUsable d = true) :
    ∃ r, s.resolvedSlot d = some r ∧ r < kNumDisplays := by
  cases hf : s.power_state_transition_ d
  · exact ⟨d.val, (resolvedSlot_eq_some_iff s d d.val).mpr (Or.inl ⟨hf, rfl⟩), d.isLt⟩
  · cases hm : s.map_hwc_display_ d.val with
    | none => simp [aliasUsable, hf, hm] at hu
    | some a =>
      simp [aliasUsable, hf, hm] at hu
      exact ⟨a, (resolvedSlot_eq_some_iff s d a).mpr (Or.inr ⟨hf, hm⟩), hu⟩

/-- A call of `CallDisplayFunction` in range that has defined behaviour went through the block
and resolved to a slot in range. -/
theorem CallDisplayFunction_ok_block (s : HWCSession kNumDisplays D) (d : Display)
    (member : D → A → W → HWC3.Error × W) (args : A) (w : W)
    (out : Outcome kNumDisplays D L A W) (h : d < kNumDisplays)
    (hok : s.CallDisplayFunction d member args w = .ok out) :
    ∃ r t, s.PowerStateTransitionStart ⟨d, h⟩ = .ok (r, t) ∧ r < kNumDisplays := by
  have hn : ¬ kNumDisplays ≤ d := Nat.not_le.mpr h
  unfold CallDisplayFunction at hok
  rw [dif_neg hn] at hok
  cases hb : s.PowerStateTransitionStart ⟨d, h⟩ with
  | error f => simp [hb] at hok
  | ok p =>
    obtain ⟨r, t⟩ := p
    by_cases hr : r < kNumDisplays
    · exact ⟨r, t, rfl, hr⟩
    · simp [hb, hr] at hok

/-- A call of `CallLayerFunction` in range that has defined behaviour went through the block
and resolved to a slot in range. -/
theorem CallLayerFunction_ok_block (G : D → LayerId → W → Option L)
    (s : HWCSession kNumDisplays D) (d : Display) (layer : LayerId)
    (member : L → A → W → HWC3.Error × W) (args : A) (w : W)
    (out : Outcome kNumDisplays D L A W) (h : d < kNumDisplays)
    (hok : CallLayerFunction G s d layer member args w = .ok out) :
    ∃ r t, s.PowerStateTransitionStart ⟨d, h⟩ = .ok (r, t) ∧ r < kNumDisplays := by
  have hn : ¬ kNumDisplays ≤ d := Nat.not_le.mpr h
  unfold CallLayerFunction at hok
  rw [dif_neg hn] at hok
  cases hb : s.PowerStateTransitionStart ⟨d, h⟩ with
  | error f => simp [hb] at hok
  | ok p =>
    obtain ⟨r, t⟩ := p
    by_cases hr : r < kNumDisplays
    · exact ⟨r, t, rfl, hr⟩
    · simp [hb, hr] at hok

/-- The checker `LockDiscipline` rejects an operation lock taken under a power-state lock. -/
theorem LockDiscipline_rejects_nesting (i j : Nat) :
    LockDiscipline [] ([.access (.acquire (.power_state_ i)), .access (.acquire (.locker_ j)),
      .access (.release (.locker_ j)), .access (.release (.power_state_ i))] :
        List (Event D L A)) = false := by
  simp [LockDiscipline, heldAfter, Lock.isPowerState, Lock.isOperation, Event.isInvoke]

/-- The checker `LockDiscipline` rejects a member invoked under a power-state lock. -/
theorem LockDiscipline_rejects_invoke_under_power_state (i : Nat) (obj : D) (args : A) :
    LockDiscipline [] ([.access (.acquire (.power_state_ i)), .invoke_display obj args,
      .access (.release (.power_state_ i))] : List (Event D L A)) = false := by
  simp [LockDiscipline, heldAfter, Lock.isPowerState, Lock.isOperation, Event.isInvoke]

/-! ## Display ids out of range -/

/-- C1: for every display id outside `[0, kNumDisplays)` and every session state,
`CallDisplayFunction` returns `BadDisplay`, makes no invocation of the requested member function
(its trace is empty: no lock, no read, no call), and leaves the session fields (slot table, alias
map, transition flags) and the state of the objects as they were. -/
theorem CallDisplayFunction_out_of_range (s : HWCSession kNumDisplays D) (display : Display)
    (member : D → A → W → HWC3.Error × W) (args : A) (w : W)
    (h : ¬ display < kNumDisplays) :
    ∃ out : Outcome kNumDisplays D L A W,
      s.CallDisplayFunction display member args w = .ok out ∧
      out.status = .BadDisplay ∧ displaysInvoked out.trace = [] ∧ out.trace = [] ∧
      out.session = s ∧ out.world = w := by
  refine ⟨⟨.BadDisplay, s, w, []⟩, ?_, rfl, rfl, rfl, rfl, rfl⟩
  unfold CallDisplayFunction
  rw [dif_pos (Nat.le_of_not_lt h)]

/-- Witness of C1 on the sample session of three slots, at display id 3. -/
theorem CallDisplayFunction_out_of_range_witness :
    ¬ 3 < 3 ∧
    ∃ out : Outcome 3 Nat Nat Nat Nat,
      sampleSession.CallDisplayFunction 3 sampleMember 5 0 = .ok out ∧
      out.status = .BadDisplay ∧ displaysInvoked out.trace = [] ∧ out.trace = [] ∧
      out.session = sampleSession ∧ out.world = 0 :=
  ⟨by decide, CallDisplayFunction_out_of_range sampleSession 3 sampleMember 5 0 (by decide)⟩

/-- C2: for every display id outside `[0, kNumDisplays)`, every layer id and every session
state, `CallLayerFunction` returns `BadDisplay`, which is not `BadLayer`, looks up no layer,
makes no invocation of the requested layer member function (its trace is empty), and leaves the
session fields and the state of the objects as they were. -/
theorem CallLayerFunction_out_of_range (G : D → LayerId → W → Option L)
    (s : HWCSession kNumDisplays D) (display : Display) (layer : LayerId)
    (member : L → A → W → HWC3.Error × W) (args : A) (w : W)
    (h : ¬ display < kNumDisplays) :
    ∃ out : Outcome kNumDisplays D L A W,
      CallLayerFunction G s display layer member args w = .ok out ∧
      out.status = .BadDisplay ∧ out.status ≠ .BadLayer ∧
      layersLooked out.trace = [] ∧ layersInvoked out.trace = [] ∧ out.trace = [] ∧
      out.session = s ∧ out.world = w := by
  refine ⟨⟨.BadDisplay, s, w, []⟩, ?_, rfl, ?_, rfl, rfl, rfl, rfl, rfl⟩
  · unfold CallLayerFunction
    rw [dif_pos (Nat.le_of_not_lt h)]
  · intro hc
    cases hc

/-- Witness of C2 on the sample session of three slots, at display id 4 and layer id 1. -/
theorem CallLayerFunction_out_of_range_witness :
    ¬ 4 < 3 ∧
    ∃ out : Outcome 3 Nat Nat Nat Nat,
      CallLayerFunction sampleGetHWCLayer sampleSession 4 1 sampleMember 5 0 = .ok out ∧
      out.status = .BadDisplay ∧ out.status ≠ .BadLayer ∧
      layersLooked out.trace = [] ∧ layersInvoked out.trace = [] ∧ out.trace = [] ∧
      out.session = sampleSession ∧ out.world = 0 :=
  ⟨by decide,
   CallLayerFunction_out_of_range sampleGetHWCLayer sampleSession 4 1 sampleMember 5 0
     (by decide)⟩

/-! ## Alias redirection -/

/-- C3: for every in-range display id `d` whose flag `power_state_transition_[d]` is set, with
alias target `a = map_hwc_display_[d]`, both `CallDisplayFunction` and `CallLayerFunction` work
on slot `a`: the one operation lock taken is `locker_[a]`, every read of the slot table is a read
of `hwc_display_[a]`, the object invoked (or asked for the layer, whose member is then invoked)
is the one bound at slot `a`, and slot `d` itself is neither locked nor read when `a` is another
slot. -/
theorem dispatch_redirected_to_alias (G : D → LayerId → W → Option L)
    (s : HWCSession kNumDisplays D) (d a : Display) (layer : LayerId)
    (dm : D → A → W → HWC3.Error × W) (lm : L → A → W → HWC3.Error × W) (args : A) (w : W)
    (h : d < kNumDisplays) (hf : s.power_state_transition_ ⟨d, h⟩ = true)
    (hm : s.map_hwc_display_ d = some a) (ha : a < kNumDisplays) :
    (∃ out : Outcome kNumDisplays D L A W,
      s.CallDisplayFunction d dm args w = .ok out ∧
      opLocks out.trace = [a] ∧
      slotsRead out.trace ≠ [] ∧ (∀ i ∈ slotsRead out.trace, i = a) ∧
      displaysInvoked out.trace = (s.hwc_display_ ⟨a, ha⟩).toList.map (fun obj => (obj, args)) ∧
      (a ≠ d → d ∉ opLocks out.trace ∧ d ∉ slotsRead out.trace)) ∧
    (∃ out : Outcome kNumDisplays D L A W,
      CallLayerFunction G s d layer lm args w = .ok out ∧
      opLocks out.trace = [a] ∧
      slotsRead out.trace ≠ [] ∧ (∀ i ∈ slotsRead out.trace, i = a) ∧
      layersLooked out.trace = (s.hwc_display_ ⟨a, ha⟩).toList.map (fun obj => (obj, layer)) ∧
      (∀ p ∈ layersInvoked out.trace, ∃ obj, s.hwc_display_ ⟨a, ha⟩ = some obj ∧
        G obj layer w = some p.1 ∧ p.2 = args) ∧
      (a ≠ d → d ∉ opLocks out.trace ∧ d ∉ slotsRead out.trace)) := by
  have hb := PowerStateTransitionStart_set s ⟨d, h⟩ a hf hm
  constructor
  · cases hd : s.hwc_display_ ⟨a, ha⟩ with
    | none =>
      refine ⟨_, CallDisplayFunction_unbound s d a dm args w _ h hb ha hd, ?_⟩
      simp [opLocks, slotsRead, displaysInvoked]
      exact fun hne hc => hne hc.symm
    | some obj =>
      refine ⟨_, CallDisplayFunction_bound s d a dm args w _ obj h hb ha hd, ?_⟩
      simp [opLocks, slotsRead, displaysInvoked]
      exact fun hne hc => hne hc.symm
  · cases hd : s.hwc_display_ ⟨a, ha⟩ with
    | none =>
      refine ⟨_, CallLayerFunction_unbound G s d a layer lm args w _ h hb ha hd, ?_⟩
      simp [opLocks, slotsRead, layersLooked, layersInvoked]
      exact fun hne hc => hne hc.symm
    | some obj =>
      cases hl : G obj layer w with
      | none =>
        refine ⟨_, CallLayerFunction_no_layer G s d a layer lm args w _ obj h hb ha hd hl, ?_⟩
        simp [opLocks, slotsRead, layersLooked, layersInvoked]
        exact fun hne hc => hne hc.symm
      | some lay =>
        refine ⟨_, CallLayerFunction_layer G s d a layer lm args w _ obj lay h hb ha hd hl, ?_⟩
        simp [opLocks, slotsRead, layersLooked, layersInvoked, hl]
        exact fun hne hc => hne hc.symm

/-- Witness of C3 on the sample session: slot 0 is in a power-state transition and paired with
slot 2, so a call on display 0 locks `locker_[2]` and invokes the dummy display 102. -/
theorem dispatch_redirected_to_alias_witness :
    (0 < 3 ∧ sampleSession.power_state_transition_ ⟨0, by decide⟩ = true ∧
      sampleSession.map_hwc_display_ 0 = some 2 ∧ 2 < 3) ∧
    (∃ out : Outcome 3 Nat Nat Nat Nat,
      sampleSession.CallDisplayFunction 0 sampleMember 5 0 = .ok out ∧
      opLocks out.trace = [2] ∧ displaysInvoked out.trace = [(102, 5)] ∧
      0 ∉ slotsRead out.trace) ∧
    (∃ out : Outcome 3 Nat Nat Nat Nat,
      CallLayerFunction sampleGetHWCLayer sampleSession 0 1 sampleMember 5 0 = .ok out ∧
      opLocks out.trace = [2] ∧ layersLooked out.trace = [(102, 1)] ∧
      0 ∉ slotsRead out.trace) :=
  have key := dispatch_redirected_to_alias sampleGetHWCLayer sampleSession 0 2 1 sampleMember
    sampleMember 5 0 (by decide) rfl rfl (by decide)
  ⟨⟨by decide, rfl, rfl, by decide⟩,
   key.1.imp (fun _ ho => ⟨ho.1, ho.2.1, ho.2.2.2.2.1, (ho.2.2.2.2.2 (by decide)).2⟩),
   key.2.imp (fun _ ho => ⟨ho.1, ho.2.1, ho.2.2.2.2.1, (ho.2.2.2.2.2.2 (by decide)).2⟩)⟩

/-- C4: for every in-range display id `d` whose flag `power_state_transition_[d]` is clear,
whatever `map_hwc_display_` holds, both `CallDisplayFunction` and `CallLayerFunction` work on
slot `d` itself: the map is not looked up, the one operation lock taken is `locker_[d]`, every
read of the slot table is a read of `hwc_display_[d]`, and the object invoked (or asked for the
layer) is the one bound at slot `d`. -/
theorem dispatch_addresses_own_slot (G : D → LayerId → W → Option L)
    (s : HWCSession kNumDisplays D) (d : Display) (layer : LayerId)
    (dm : D → A → W → HWC3.Error × W) (lm : L → A → W → HWC3.Error × W) (args : A) (w : W)
    (h : d < kNumDisplays) (hf : s.power_state_transition_ ⟨d, h⟩ = false) :
    (∃ out : Outcome kNumDisplays D L A W,
      s.CallDisplayFunction d dm args w = .ok out ∧
      aliasLookups out.trace = [] ∧
      lockEvents out.trace = [.acquire (.power_state_ d), .release (.power_state_ d),
        .acquire (.locker_ d), .release (.locker_ d)] ∧
      opLocks out.trace = [d] ∧
      slotsRead out.trace ≠ [] ∧ (∀ i ∈ slotsRead out.trace, i = d) ∧
      displaysInvoked out.trace = (s.hwc_display_ ⟨d, h⟩).toList.map (fun obj => (obj, args))) ∧
    (∃ out : Outcome kNumDisplays D L A W,
      CallLayerFunction G s d layer lm args w = .ok out ∧
      aliasLookups out.trace = [] ∧
      lockEvents out.trace = [.acquire (.power_state_ d), .release (.power_state_ d),
        .acquire (.locker_ d), .release (.locker_ d)] ∧
      opLocks out.trace = [d] ∧
      slotsRead out.trace ≠ [] ∧ (∀ i ∈ slotsRead out.trace, i = d) ∧
      layersLooked out.trace = (s.hwc_display_ ⟨d, h⟩).toList.map (fun obj => (obj, layer)) ∧
      (∀ p ∈ layersInvoked out.trace, ∃ obj, s.hwc_display_ ⟨d, h⟩ = some obj ∧
        G obj layer w = some p.1 ∧ p.2 = args)) := by
  have hb := PowerStateTransitionStart_clear s ⟨d, h⟩ hf
  constructor
  · cases hd : s.hwc_display_ ⟨d, h⟩ with
    | none =>
      refine ⟨_, CallDisplayFunction_unbound s d d dm args w _ h hb h hd, ?_⟩
      simp [opLocks, slotsRead, displaysInvoked, aliasLookups, lockEvents]
    | some obj =>
      refine ⟨_, CallDisplayFunction_bound s d d dm args w _ obj h hb h hd, ?_⟩
      simp [opLocks, slotsRead, displaysInvoked, aliasLookups, lockEvents]
  · cases hd : s.hwc_display_ ⟨d, h⟩ with
    | none =>
      refine ⟨_, CallLayerFunction_unbound G s d d layer lm args w _ h hb h hd, ?_⟩
      simp [opLocks, slotsRead, layersLooked, layersInvoked, aliasLookups, lockEvents]
    | some obj =>
      cases hl : G obj layer w with
      | none =>
        refine ⟨_, CallLayerFunction_no_layer G s d d layer lm args w _ obj h hb h hd hl, ?_⟩
        simp [opLocks, slotsRead, layersLooked, layersInvoked, aliasLookups, lockEvents]
      | some lay =>
        refine ⟨_, CallLayerFunction_layer G s d d layer lm args w _ obj lay h hb h hd hl, ?_⟩
        simp [opLocks, slotsRead, layersLooked, layersInvoked, aliasLookups, lockEvents, hl]

/-- Witness of C4 on the sample session whose map pairs every slot with slot 7: slot 2 is in no
power-state transition, so a call on display 2 locks `locker_[2]` and invokes display 102. -/
theorem dispatch_addresses_own_slot_witness :
    (2 < 3 ∧ sampleSessionFarAlias.power_state_transition_ ⟨2, by decide⟩ = false ∧
      sampleSessionFarAlias.map_hwc_display_ 2 = some 7) ∧
    (∃ out : Outcome 3 Nat Nat Nat Nat,
      sampleSessionFarAlias.CallDisplayFunction 2 sampleMember 5 0 = .ok out ∧
      aliasLookups out.trace = [] ∧ opLocks out.trace = [2] ∧
      displaysInvoked out.trace = [(102, 5)]) ∧
    (∃ out : Outcome 3 Nat Nat Nat Nat,
      CallLayerFunction sampleGetHWCLayer sampleSessionFarAlias 2 1 sampleMember 5 0 = .ok out ∧
      aliasLookups out.trace = [] ∧ opLocks out.trace = [2] ∧
      layersLooked out.trace = [(102, 1)]) :=
  have key := dispatch_addresses_own_slot sampleGetHWCLayer sampleSessionFarAlias 2 1
    sampleMember sampleMember 5 0 (by decide) rfl
  ⟨⟨by decide, rfl, rfl⟩,
   key.1.imp (fun _ ho => ⟨ho.1, ho.2.1, ho.2.2.2.1, ho.2.2.2.2.2.2⟩),
   key.2.imp (fun _ ho => ⟨ho.1, ho.2.1, ho.2.2.2.1, ho.2.2.2.2.2.2.1⟩)⟩

/-! ## Validity of the alias path -/

/-- The templates follow the alias of a slot whose flag is set without a check of their own, so
they rely on the registry for it. On field values that break the invariant of the registry,
with `power_state_transition_[0]` set: a map without an entry for 0 makes both calls on display
0 dereference `end()`; a map that pairs 0 with 7 makes them subscript `locker_` past the
arrays; and a map that pairs 0 with 0 resolves display 0 to slot 0 itself. -/
theorem alias_path_unchecked :
    (sampleSessionNoAlias.power_state_transition_ ⟨0, by decide⟩ = true ∧
      sampleSessionNoAlias.map_hwc_display_ 0 = none ∧
      (sampleSessionNoAlias.CallDisplayFunction 0 sampleMember 5 0 :
        Except Fault (Outcome 3 Nat Nat Nat Nat)) = .error (.find_end 0) ∧
      CallLayerFunction sampleGetHWCLayer sampleSessionNoAlias 0 1 sampleMember 5 0 =
        .error (.find_end 0)) ∧
    (sampleSessionFarAlias.power_state_transition_ ⟨0, by decide⟩ = true ∧
      sampleSessionFarAlias.resolvedSlot ⟨0, by decide⟩ = some 7 ∧ ¬ 7 < 3 ∧
      (sampleSessionFarAlias.CallDisplayFunction 0 sampleMember 5 0 :
        Except Fault (Outcome 3 Nat Nat Nat Nat)) = .error (.out_of_range 7) ∧
      CallLayerFunction sampleGetHWCLayer sampleSessionFarAlias 0 1 sampleMember 5 0 =
        .error (.out_of_range 7)) ∧
    (sampleSessionSelfAlias.power_state_transition_ ⟨0, by decide⟩ = true ∧
      sampleSessionSelfAlias.resolvedSlot ⟨0, by decide⟩ = some 0) :=
  ⟨⟨rfl, rfl, rfl, rfl⟩, ⟨rfl, rfl, by decide, rfl, rfl⟩, ⟨rfl, rfl⟩⟩

/-- The templates on a slot in a power-state transition whose pair is valid: if
`map_hwc_display_` has an entry for `d` whose target `a` is in `[0, kNumDisplays)` and
different from `d`, then the alias lookup of `CallDisplayFunction` and `CallLayerFunction`
succeeds and yields `a`, both calls have defined behaviour, and every subscript they use on
`locker_` and `hwc_display_` is below `kNumDisplays` and is not `d`. -/
theorem alias_path_valid_of_entry (G : D → LayerId → W → Option L)
    (s : HWCSession kNumDisplays D) (d a : Display) (layer : LayerId)
    (dm : D → A → W → HWC3.Error × W) (lm : L → A → W → HWC3.Error × W) (args : A) (w : W)
    (h : d < kNumDisplays) (hf : s.power_state_transition_ ⟨d, h⟩ = true)
    (hm : s.map_hwc_display_ d = some a) (ha : a < kNumDisplays) (hne : a ≠ d) :
    s.resolvedSlot ⟨d, h⟩ = some a ∧
    (∃ out : Outcome kNumDisplays D L A W,
      s.CallDisplayFunction d dm args w = .ok out ∧
      aliasLookups out.trace = [d] ∧
      ∀ i ∈ opLocks out.trace ++ slotsRead out.trace, i < kNumDisplays ∧ i ≠ d) ∧
    (∃ out : Outcome kNumDisplays D L A W,
      CallLayerFunction G s d layer lm args w = .ok out ∧
      aliasLookups out.trace = [d] ∧
      ∀ i ∈ opLocks out.trace ++ slotsRead out.trace, i < kNumDisplays ∧ i ≠ d) := by
  have hb := PowerStateTransitionStart_set s ⟨d, h⟩ a hf hm
  refine ⟨(resolvedSlot_eq_some_iff s ⟨d, h⟩ a).mpr (Or.inr ⟨hf, hm⟩), ?_, ?_⟩
  · cases hd : s.hwc_display_ ⟨a, ha⟩ with
    | none =>
      refine ⟨_, CallDisplayFunction_unbound s d a dm args w _ h hb ha hd, ?_⟩
      simp [opLocks, slotsRead, aliasLookups, ha, hne]
    | some obj =>
      refine ⟨_, CallDisplayFunction_bound s d a dm args w _ obj h hb ha hd, ?_⟩
      simp [opLocks, slotsRead, aliasLookups, ha, hne]
  · cases hd : s.hwc_display_ ⟨a, ha⟩ with
    | none =>
      refine ⟨_, CallLayerFunction_unbound G s d a layer lm args w _ h hb ha hd, ?_⟩
      simp [opLocks, slotsRead, aliasLookups, ha, hne]
    | some obj =>
      cases hl : G obj layer w with
      | none =>
        refine ⟨_, CallLayerFunction_no_layer G s d a layer lm args w _ obj h hb ha hd hl, ?_⟩
        simp [opLocks, slotsRead, aliasLookups, ha, hne]
      | some lay =>
        refine ⟨_, CallLayerFunction_layer G s d a layer lm args w _ obj lay h hb ha hd hl, ?_⟩
        simp [opLocks, slotsRead, aliasLookups, ha, hne]

/-- The lemma `alias_path_valid_of_entry` on the sample session, whose map pairs slot 0 with
slot 2. -/
theorem alias_path_valid_of_entry_witness :
    (0 < 3 ∧ sampleSession.power_state_transition_ ⟨0, by decide⟩ = true ∧
      sampleSession.map_hwc_display_ 0 = some 2 ∧ 2 < 3 ∧ 2 ≠ 0) ∧
    sampleSession.resolvedSlot ⟨0, by decide⟩ = some 2 ∧
    (∃ out : Outcome 3 Nat Nat Nat Nat,
      sampleSession.CallDisplayFunction 0 sampleMember 5 0 = .ok out ∧
      aliasLookups out.trace = [0] ∧
      ∀ i ∈ opLocks out.trace ++ slotsRead out.trace, i < 3 ∧ i ≠ 0) ∧
    (∃ out : Outcome 3 Nat Nat Nat Nat,
      CallLayerFunction sampleGetHWCLayer sampleSession 0 1 sampleMember 5 0 = .ok out ∧
      aliasLookups out.trace = [0] ∧
      ∀ i ∈ opLocks out.trace ++ slotsRead out.trace, i < 3 ∧ i ≠ 0) :=
  ⟨⟨by decide, rfl, rfl, by decide, by decide⟩,
   alias_path_valid_of_entry sampleGetHWCLayer sampleSession 0 2 1 sampleMember sampleMember 5 0
     (by decide) rfl rfl (by decide) (by decide)⟩

/-- The registry rules out a power-state transition on a slot that has no pair, and a pair
whose target is the slot itself or is not one of the slots. -/
theorem runRegistryOps_ruled_out :
    runRegistryOps [.power_transition_begin 0] (ctor : HWCSession 3 Nat) = none ∧
    runRegistryOps [.pair 0 0] (ctor : HWCSession 3 Nat) = none ∧
    runRegistryOps [.pair 0 7] (ctor : HWCSession 3 Nat) = none :=
  ⟨rfl, rfl, rfl⟩

/-- C6: for every in-range display id, if no display object is bound at the slot the call
resolves to (`hwc_display_` at the possibly substituted id is null), `CallDisplayFunction`
returns `BadDisplay` without invoking the requested member function, and `CallLayerFunction`
returns `BadDisplay` without looking up the layer (and so without invoking a layer member);
the state of the objects is untouched. -/
theorem unbound_slot_BadDisplay (G : D → LayerId → W → Option L)
    (s : HWCSession kNumDisplays D) (d r : Display) (layer : LayerId)
    (dm : D → A → W → HWC3.Error × W) (lm : L → A → W → HWC3.Error × W) (args : A) (w : W)
    (h : d < kNumDisplays) (hres : s.resolvedSlot ⟨d, h⟩ = some r) (hr : r < kNumDisplays)
    (hd : s.hwc_display_ ⟨r, hr⟩ = none) :
    (∃ out : Outcome kNumDisplays D L A W,
      s.CallDisplayFunction d dm args w = .ok out ∧
      out.status = .BadDisplay ∧ displaysInvoked out.trace = [] ∧ out.world = w) ∧
    (∃ out : Outcome kNumDisplays D L A W,
      CallLayerFunction G s d layer lm args w = .ok out ∧
      out.status = .BadDisplay ∧ layersLooked out.trace = [] ∧
      layersInvoked out.trace = [] ∧ out.world = w) := by
  obtain ⟨t, hb⟩ := PowerStateTransitionStart_of_resolvedSlot s ⟨d, h⟩ r hres
  constructor
  · refine ⟨_, CallDisplayFunction_unbound s d r dm args w t h hb hr hd, rfl, ?_, rfl⟩
    rcases PowerStateTransitionStart_trace s ⟨d, h⟩ r t hb with ht | ht <;>
      simp [ht, displaysInvoked]
  · refine ⟨_, CallLayerFunction_unbound G s d r layer lm args w t h hb hr hd, rfl, ?_, ?_, rfl⟩
    · rcases PowerStateTransitionStart_trace s ⟨d, h⟩ r t hb with ht | ht <;>
        simp [ht, layersLooked]
    · rcases PowerStateTransitionStart_trace s ⟨d, h⟩ r t hb with ht | ht <;>
        simp [ht, layersInvoked]

/-- Witness of C6 on the sample session, whose slot 1 is in range and unbound. -/
theorem unbound_slot_BadDisplay_witness :
    (1 < 3 ∧ sampleSession.resolvedSlot ⟨1, by decide⟩ = some 1 ∧
      sampleSession.hwc_display_ ⟨1, by decide⟩ = none) ∧
    (∃ out : Outcome 3 Nat Nat Nat Nat,
      sampleSession.CallDisplayFunction 1 sampleMember 5 0 = .ok out ∧
      out.status = .BadDisplay ∧ displaysInvoked out.trace = [] ∧ out.world = 0) ∧
    (∃ out : Outcome 3 Nat Nat Nat Nat,
      CallLayerFunction sampleGetHWCLayer sampleSession 1 1 sampleMember 5 0 = .ok out ∧
      out.status = .BadDisplay ∧ layersLooked out.trace = [] ∧
      layersInvoked out.trace = [] ∧ out.world = 0) :=
  ⟨⟨by decide, rfl, rfl⟩,
   unbound_slot_BadDisplay sampleGetHWCLayer sampleSession 1 1 1 sampleMember sampleMember 5 0
     (by decide) rfl (by decide) rfl⟩

/-- C7: for every in-range display id whose resolved slot has a bound display object, and every
layer id for which `GetHWCLayer` of that object returns no layer, `CallLayerFunction` returns
`BadLayer` and does not invoke the requested layer member function; the state of the objects is
untouched. -/
theorem unresolved_layer_BadLayer (G : D → LayerId → W → Option L)
    (s : HWCSession kNumDisplays D) (d r : Display) (layer : LayerId)
    (lm : L → A → W → HWC3.Error × W) (args : A) (w : W) (obj : D)
    (h : d < kNumDisplays) (hres : s.resolvedSlot ⟨d, h⟩ = some r) (hr : r < kNumDisplays)
    (hd : s.hwc_display_ ⟨r, hr⟩ = some obj) (hl : G obj layer w = none) :
    ∃ out : Outcome kNumDisplays D L A W,
      CallLayerFunction G s d layer lm args w = .ok out ∧
      out.status = .BadLayer ∧ layersLooked out.trace = [(obj, layer)] ∧
      layersInvoked out.trace = [] ∧ out.world = w := by
  obtain ⟨t, hb⟩ := PowerStateTransitionStart_of_resolvedSlot s ⟨d, h⟩ r hres
  refine ⟨_, CallLayerFunction_no_layer G s d r layer lm args w t obj h hb hr hd hl, rfl,
    ?_, ?_, rfl⟩
  · rcases PowerStateTransitionStart_trace s ⟨d, h⟩ r t hb with ht | ht <;>
      simp [ht, layersLooked]
  · rcases PowerStateTransitionStart_trace s ⟨d, h⟩ r t hb with ht | ht <;>
      simp [ht, layersInvoked]

/-- Witness of C7 on the sample session: display 0 resolves to slot 2, whose display 102 has no
layer 9. -/
theorem unresolved_layer_BadLayer_witness :
    (0 < 3 ∧ sampleSession.resolvedSlot ⟨0, by decide⟩ = some 2 ∧
      sampleSession.hwc_display_ ⟨2, by decide⟩ = some 102 ∧
      sampleGetHWCLayer 102 9 0 = none) ∧
    ∃ out : Outcome 3 Nat Nat Nat Nat,
      CallLayerFunction sampleGetHWCLayer sampleSession 0 9 sampleMember 5 0 = .ok out ∧
      out.status = .BadLayer ∧ layersLooked out.trace = [(102, 9)] ∧
      layersInvoked out.trace = [] ∧ out.world = 0 :=
  ⟨⟨by decide, rfl, rfl, rfl⟩,
   unresolved_layer_BadLayer sampleGetHWCLayer sampleSession 0 2 9 sampleMember 5 0 102
     (by decide) rfl (by decide) rfl rfl⟩

/-- C8: for every in-range display id whose resolved slot has a bound display object,
`CallDisplayFunction` invokes the requested member function exactly once, on that bound object
and with the arguments of the caller, and returns the status of that invocation, whatever it is;
the state of the objects after the call is the one the invocation left. -/
theorem CallDisplayFunction_invokes_once (s : HWCSession kNumDisplays D) (d r : Display)
    (dm : D → A → W → HWC3.Error × W) (args : A) (w : W) (obj : D)
    (h : d < kNumDisplays) (hres : s.resolvedSlot ⟨d, h⟩ = some r) (hr : r < kNumDisplays)
    (hd : s.hwc_display_ ⟨r, hr⟩ = some obj) :
    ∃ out : Outcome kNumDisplays D L A W,
      s.CallDisplayFunction d dm args w = .ok out ∧
      displaysInvoked out.trace = [(obj, args)] ∧
      out.status = (dm obj args w).1 ∧ out.world = (dm obj args w).2 := by
  obtain ⟨t, hb⟩ := PowerStateTransitionStart_of_resolvedSlot s ⟨d, h⟩ r hres
  refine ⟨_, CallDisplayFunction_bound s d r dm args w t obj h hb hr hd, ?_, rfl, rfl⟩
  rcases PowerStateTransitionStart_trace s ⟨d, h⟩ r t hb with ht | ht <;>
    simp [ht, displaysInvoked]

/-- Witness of C8 on the sample session: display 2 is bound to object 102, and the member fails
on argument 0, so the call returns that failure. -/
theorem CallDisplayFunction_invokes_once_witness :
    (2 < 3 ∧ sampleSession.resolvedSlot ⟨2, by decide⟩ = some 2 ∧
      sampleSession.hwc_display_ ⟨2, by decide⟩ = some 102) ∧
    ∃ out : Outcome 3 Nat Nat Nat Nat,
      sampleSession.CallDisplayFunction 2 sampleMember 0 0 = .ok out ∧
      displaysInvoked out.trace = [(102, 0)] ∧
      out.status = .BadParameter ∧ out.world = 0 :=
  ⟨⟨by decide, rfl, rfl⟩,
   CallDisplayFunction_invokes_once sampleSession 2 2 sampleMember 0 0 102
     (by decide) rfl (by decide) rfl⟩

/-- C9: for every in-range display id whose resolved slot has a bound display object and every
layer id that `GetHWCLayer` resolves on that object, `CallLayerFunction` invokes the requested
member function exactly once, on the resolved layer and with the arguments of the caller, and
returns the status of that invocation; the state of the objects after the call is the one the
invocation left. -/
theorem CallLayerFunction_invokes_once (G : D → LayerId → W → Option L)
    (s : HWCSession kNumDisplays D) (d r : Display) (layer : LayerId)
    (lm : L → A → W → HWC3.Error × W) (args : A) (w : W) (obj : D) (lay : L)
    (h : d < kNumDisplays) (hres : s.resolvedSlot ⟨d, h⟩ = some r) (hr : r < kNumDisplays)
    (hd : s.hwc_display_ ⟨r, hr⟩ = some obj) (hl : G obj layer w = some lay) :
    ∃ out : Outcome kNumDisplays D L A W,
      CallLayerFunction G s d layer lm args w = .ok out ∧
      layersInvoked out.trace = [(lay, args)] ∧
      out.status = (lm lay args w).1 ∧ out.world = (lm lay args w).2 := by
  obtain ⟨t, hb⟩ := PowerStateTransitionStart_of_resolvedSlot s ⟨d, h⟩ r hres
  refine ⟨_, CallLayerFunction_layer G s d r layer lm args w t obj lay h hb hr hd hl, ?_,
    rfl, rfl⟩
  rcases PowerStateTransitionStart_trace s ⟨d, h⟩ r t hb with ht | ht <;>
    simp [ht, layersInvoked]

/-- Witness of C9 on the sample session: display 0 resolves to slot 2, and layer 1 of its
display 102 is layer object 1021. -/
theorem CallLayerFunction_invokes_once_witness :
    (0 < 3 ∧ sampleSession.resolvedSlot ⟨0, by decide⟩ = some 2 ∧
      sampleSession.hwc_display_ ⟨2, by decide⟩ = some 102 ∧
      sampleGetHWCLayer 102 1 0 = some 1021) ∧
    ∃ out : Outcome 3 Nat Nat Nat Nat,
      CallLayerFunction sampleGetHWCLayer sampleSession 0 1 sampleMember 5 0 = .ok out ∧
      layersInvoked out.trace = [(1021, 5)] ∧
      out.status = .None ∧ out.world = 1 :=
  ⟨⟨by decide, rfl, rfl, rfl⟩,
   CallLayerFunction_invokes_once sampleGetHWCLayer sampleSession 0 2 1 sampleMember 5 0 102 1021
     (by decide) rfl (by decide) rfl rfl⟩

/-! ## Order of the two lock levels -/

/-- C10: in every execution of `CallDisplayFunction` or `CallLayerFunction` with an in-range
display id `d`, the lock events are `acquire power_state_[d]`, `release power_state_[d]` and
only then the acquisition (and release) of an operation lock `locker_[r]`; at no point of the
call are a power-state lock and an operation lock held together, and the requested member runs
with no power-state lock held. An execution is a call with defined behaviour, and the calls on a
slot whose alias can be followed have one. -/
theorem power_state_lock_before_operation_lock (G : D → LayerId → W → Option L)
    (s : HWCSession kNumDisplays D) (d : Display) (layer : LayerId)
    (dm : D → A → W → HWC3.Error × W) (lm : L → A → W → HWC3.Error × W) (args : A) (w : W)
    (h : d < kNumDisplays) :
    (s.aliasUsable ⟨d, h⟩ = true →
      (∃ out : Outcome kNumDisplays D L A W, s.CallDisplayFunction d dm args w = .ok out) ∧
      (∃ out : Outcome kNumDisplays D L A W,
        CallLayerFunction G s d layer lm args w = .ok out)) ∧
    (∀ out : Outcome kNumDisplays D L A W, s.CallDisplayFunction d dm args w = .ok out →
      (∃ r, lockEvents out.trace = [.acquire (.power_state_ d), .release (.power_state_ d),
        .acquire (.locker_ r), .release (.locker_ r)]) ∧
      LockDiscipline [] out.trace = true) ∧
    (∀ out : Outcome kNumDisplays D L A W, CallLayerFunction G s d layer lm args w = .ok out →
      (∃ r, lockEvents out.trace = [.acquire (.power_state_ d), .release (.power_state_ d),
        .acquire (.locker_ r), .release (.locker_ r)]) ∧
      LockDiscipline [] out.trace = true) := by
  refine ⟨?_, ?_, ?_⟩
  · intro hu
    obtain ⟨r, hres, hr⟩ := resolvedSlot_of_aliasUsable s ⟨d, h⟩ hu
    obtain ⟨t, hb⟩ := PowerStateTransitionStart_of_resolvedSlot s ⟨d, h⟩ r hres
    constructor
    · cases hd : s.hwc_display_ ⟨r, hr⟩ with
      | none => exact ⟨_, CallDisplayFunction_unbound s d r dm args w t h hb hr hd⟩
      | some obj => exact ⟨_, CallDisplayFunction_bound s d r dm args w t obj h hb hr hd⟩
    · cases hd : s.hwc_display_ ⟨r, hr⟩ with
      | none => exact ⟨_, CallLayerFunction_unbound G s d r layer lm args w t h hb hr hd⟩
      | some obj =>
        cases hl : G obj layer w with
        | none => exact ⟨_, CallLayerFunction_no_layer G s d r layer lm args w t obj h hb hr hd hl⟩
        | some lay =>
          exact ⟨_, CallLayerFunction_layer G s d r layer lm args w t obj lay h hb hr hd hl⟩
  · intro out hok
    obtain ⟨r, t, hb, hr⟩ := CallDisplayFunction_ok_block s d dm args w out h hok
    have ht := PowerStateTransitionStart_trace s ⟨d, h⟩ r t hb
    cases hd : s.hwc_display_ ⟨r, hr⟩ with
    | none =>
      rw [CallDisplayFunction_unbound s d r dm args w t h hb hr hd] at hok
      cases hok
      rcases ht with ht | ht <;> subst ht <;>
        exact ⟨⟨r, by simp [lockEvents]⟩,
          by simp [LockDiscipline, heldAfter, Lock.isPowerState, Lock.isOperation, Event.isInvoke]⟩
    | some obj =>
      rw [CallDisplayFunction_bound s d r dm args w t obj h hb hr hd] at hok
      cases hok
      rcases ht with ht | ht <;> subst ht <;>
        exact ⟨⟨r, by simp [lockEvents]⟩,
          by simp [LockDiscipline, heldAfter, Lock.isPowerState, Lock.isOperation, Event.isInvoke]⟩
  · intro out hok
    obtain ⟨r, t, hb, hr⟩ := CallLayerFunction_ok_block G s d layer lm args w out h hok
    have ht := PowerStateTransitionStart_trace s ⟨d, h⟩ r t hb
    cases hd : s.hwc_display_ ⟨r, hr⟩ with
    | none =>
      rw [CallLayerFunction_unbound G s d r layer lm args w t h hb hr hd] at hok
      cases hok
      rcases ht with ht | ht <;> subst ht <;>
        exact ⟨⟨r, by simp [lockEvents]⟩,
          by simp [LockDiscipline, heldAfter, Lock.isPowerState, Lock.isOperation, Event.isInvoke]⟩
    | some obj =>
      cases hl : G obj layer w with
      | none =>
        rw [CallLayerFunction_no_layer G s d r layer lm args w t obj h hb hr hd hl] at hok
        cases hok
        rcases ht with ht | ht <;> subst ht <;>
          exact ⟨⟨r, by simp [lockEvents]⟩,
            by simp [LockDiscipline, heldAfter, Lock.isPowerState, Lock.isOperation,
              Event.isInvoke]⟩
      | some lay =>
        rw [CallLayerFunction_layer G s d r layer lm args w t obj lay h hb hr hd hl] at hok
        cases hok
        rcases ht with ht | ht <;> subst ht <;>
          exact ⟨⟨r, by simp [lockEvents]⟩,
            by simp [LockDiscipline, heldAfter, Lock.isPowerState, Lock.isOperation,
              Event.isInvoke]⟩

/-- Witness of C10 on the sample session, at display 0 (in a power-state transition, paired
with slot 2) and layer 1. -/
theorem power_state_lock_before_operation_lock_witness :
    (0 < 3 ∧ sampleSession.aliasUsable ⟨0, by decide⟩ = true) ∧
    (∃ out : Outcome 3 Nat Nat Nat Nat,
      sampleSession.CallDisplayFunction 0 sampleMember 5 0 = .ok out ∧
      (∃ r, lockEvents out.trace = [.acquire (.power_state_ 0), .release (.power_state_ 0),
        .acquire (.locker_ r), .release (.locker_ r)]) ∧
      LockDiscipline [] out.trace = true) ∧
    (∃ out : Outcome 3 Nat Nat Nat Nat,
      CallLayerFunction sampleGetHWCLayer sampleSession 0 1 sampleMember 5 0 = .ok out ∧
      (∃ r, lockEvents out.trace = [.acquire (.power_state_ 0), .release (.power_state_ 0),
        .acquire (.locker_ r), .release (.locker_ r)]) ∧
      LockDiscipline [] out.trace = true) :=
  have key := power_state_lock_before_operation_lock sampleGetHWCLayer sampleSession 0 1
    sampleMember sampleMember 5 0 (by decide)
  ⟨⟨by decide, rfl⟩,
   (key.1 rfl).1.imp (fun out hok => ⟨hok, key.2.1 out hok⟩),
   (key.1 rfl).2.imp (fun out hok => ⟨hok, key.2.2 out hok⟩)⟩

/-! ## More on the dispatch templates, case by case -/

/-- The template `CallDisplayFunction` on a display id at or past `kNumDisplays`. -/
theorem CallDisplayFunction_ge (s : HWCSession kNumDisplays D) (display : Display)
    (member : D → A → W → HWC3.Error × W) (args : A) (w : W)
    (h : kNumDisplays ≤ display) :
    (s.CallDisplayFunction display member args w : Except Fault (Outcome kNumDisplays D L A W)) =
      .ok ⟨.BadDisplay, s, w, []⟩ := by
  unfold CallDisplayFunction
  rw [dif_pos h]

/-- The template `CallLayerFunction` on a display id at or past `kNumDisplays`. -/
theorem CallLayerFunction_ge (G : D → LayerId → W → Option L)
    (s : HWCSession kNumDisplays D) (display : Display) (layer : LayerId)
    (member : L → A → W → HWC3.Error × W) (args : A) (w : W)
    (h : kNumDisplays ≤ display) :
    CallLayerFunction G s display layer member args w = .ok ⟨.BadDisplay, s, w, []⟩ := by
  unfold CallLayerFunction
  rw [dif_pos h]

/-- The block reads the flag and the map entry of its slot and nothing else of the session. -/
theorem PowerStateTransitionStart_congr (s1 s2 : HWCSession kNumDisplays D)
    (d : Fin kNumDisplays)
    (hflag : s1.power_state_transition_ d = s2.power_state_transition_ d)
    (hmap : s1.map_hwc_display_ d.val = s2.map_hwc_display_ d.val) :
    s1.PowerStateTransitionStart d = s2.PowerStateTransitionStart d := by
  unfold PowerStateTransitionStart
  rw [hflag, hmap]

/-- The slot the block resolves to is the resolved slot. -/
theorem resolvedSlot_of_block (s : HWCSession kNumDisplays D) (d : Fin kNumDisplays)
    (r : Display) (t : List Access) (hb : s.PowerStateTransitionStart d = .ok (r, t)) :
    s.resolvedSlot d = some r := by
  unfold resolvedSlot
  rw [hb]

/-- The template `CallDisplayFunction` when the block is undefined. -/
theorem CallDisplayFunction_block_error (s : HWCSession kNumDisplays D) (d : Display)
    (member : D → A → W → HWC3.Error × W) (args : A) (w : W) (f : Fault)
    (h : d < kNumDisplays) (hb : s.PowerStateTransitionStart ⟨d, h⟩ = .error f) :
    (s.CallDisplayFunction d member args w : Except Fault (Outcome kNumDisplays D L A W)) =
      .error f := by
  have hn : ¬ kNumDisplays ≤ d := Nat.not_le.mpr h
  unfold CallDisplayFunction
  rw [dif_neg hn]
  simp only [hb]

/-- The template `CallDisplayFunction` when the block resolves past the arrays. -/
theorem CallDisplayFunction_block_past (s : HWCSession kNumDisplays D) (d r : Display)
    (member : D → A → W → HWC3.Error × W) (args : A) (w : W) (t : List Access)
    (h : d < kNumDisplays) (hb : s.PowerStateTransitionStart ⟨d, h⟩ = .ok (r, t))
    (hr : ¬ r < kNumDisplays) :
    (s.CallDisplayFunction d member args w : Except Fault (Outcome kNumDisplays D L A W)) =
      .error (.out_of_range r) := by
  have hn : ¬ kNumDisplays ≤ d := Nat.not_le.mpr h
  unfold CallDisplayFunction
  rw [dif_neg hn]
  simp only [hb, dif_neg hr]

/-- The template `CallLayerFunction` when the block is undefined. -/
theorem CallLayerFunction_block_error (G : D → LayerId → W → Option L)
    (s : HWCSession kNumDisplays D) (d : Display) (layer : LayerId)
    (member : L → A → W → HWC3.Error × W) (args : A) (w : W) (f : Fault)
    (h : d < kNumDisplays) (hb : s.PowerStateTransitionStart ⟨d, h⟩ = .error f) :
    CallLayerFunction G s d layer member args w = .error f := by
  have hn : ¬ kNumDisplays ≤ d := Nat.not_le.mpr h
  unfold CallLayerFunction
  rw [dif_neg hn]
  simp only [hb]

/-- The template `CallLayerFunction` when the block resolves past the arrays. -/
theorem CallLayerFunction_block_past (G : D → LayerId → W → Option L)
    (s : HWCSession kNumDisplays D) (d r : Display) (layer : LayerId)
    (member : L → A → W → HWC3.Error × W) (args : A) (w : W) (t : List Access)
    (h : d < kNumDisplays) (hb : s.PowerStateTransitionStart ⟨d, h⟩ = .ok (r, t))
    (hr : ¬ r < kNumDisplays) :
    CallLayerFunction G s d layer member args w = .error (.out_of_range r) := by
  have hn : ¬ kNumDisplays ≤ d := Nat.not_le.mpr h
  unfold CallLayerFunction
  rw [dif_neg hn]
  simp only [hb, dif_neg hr]

/-- The checker `HeldThroughout` rejects a read of the slot table made before the lock. -/
theorem HeldThroughout_rejects_early_read (i : Nat) :
    HeldThroughout (.locker_ i) [] ([.access (.read_hwc_display_ i),
      .access (.acquire (.locker_ i)), .access (.release (.locker_ i))] :
        List (Event D L A)) = false := by
  simp [HeldThroughout, heldAfter, Event.isGuarded]

/-- The checker `HeldThroughout` rejects an invocation made after the lock is dropped. -/
theorem HeldThroughout_rejects_late_invoke (i : Nat) (obj : D) (args : A) :
    HeldThroughout (.locker_ i) [] ([.access (.acquire (.locker_ i)),
      .access (.release (.locker_ i)), .invoke_display obj args] :
        List (Event D L A)) = false := by
  simp [HeldThroughout, heldAfter, Event.isGuarded]

/-! ## The operation lock -/

/-- C11: every execution of `CallDisplayFunction` or `CallLayerFunction` with an in-range
display id acquires exactly one operation lock, `locker_[r]` for the resolved (possibly
substituted) slot `r`, holds it at the check of `hwc_display_[r]`, at the layer lookup and at
the invocation, and holds no lock at all when it returns, whichever status it returns. An
execution is a call with defined behaviour, and the calls on a slot whose alias can be followed
have one. -/
theorem one_operation_lock_held_and_released (G : D → LayerId → W → Option L)
    (s : HWCSession kNumDisplays D) (d : Display) (layer : LayerId)
    (dm : D → A → W → HWC3.Error × W) (lm : L → A → W → HWC3.Error × W) (args : A) (w : W)
    (h : d < kNumDisplays) :
    (s.aliasUsable ⟨d, h⟩ = true →
      (∃ out : Outcome kNumDisplays D L A W, s.CallDisplayFunction d dm args w = .ok out) ∧
      (∃ out : Outcome kNumDisplays D L A W,
        CallLayerFunction G s d layer lm args w = .ok out)) ∧
    (∀ out : Outcome kNumDisplays D L A W, s.CallDisplayFunction d dm args w = .ok out →
      ∃ r, s.resolvedSlot ⟨d, h⟩ = some r ∧ opLocks out.trace = [r] ∧
        slotsRead out.trace ≠ [] ∧
        HeldThroughout (.locker_ r) [] out.trace = true ∧ heldAtReturn [] out.trace = []) ∧
    (∀ out : Outcome kNumDisplays D L A W, CallLayerFunction G s d layer lm args w = .ok out →
      ∃ r, s.resolvedSlot ⟨d, h⟩ = some r ∧ opLocks out.trace = [r] ∧
        slotsRead out.trace ≠ [] ∧
        HeldThroughout (.locker_ r) [] out.trace = true ∧ heldAtReturn [] out.trace = []) := by
  refine ⟨?_, ?_, ?_⟩
  · intro hu
    obtain ⟨r, hres, hr⟩ := resolvedSlot_of_aliasUsable s ⟨d, h⟩ hu
    obtain ⟨t, hb⟩ := PowerStateTransitionStart_of_resolvedSlot s ⟨d, h⟩ r hres
    constructor
    · cases hd : s.hwc_display_ ⟨r, hr⟩ with
      | none => exact ⟨_, CallDisplayFunction_unbound s d r dm args w t h hb hr hd⟩
      | some obj => exact ⟨_, CallDisplayFunction_bound s d r dm args w t obj h hb hr hd⟩
    · cases hd : s.hwc_display_ ⟨r, hr⟩ with
      | none => exact ⟨_, CallLayerFunction_unbound G s d r layer lm args w t h hb hr hd⟩
      | some obj =>
        cases hl : G obj layer w with
        | none => exact ⟨_, CallLayerFunction_no_layer G s d r layer lm args w t obj h hb hr hd hl⟩
        | some lay =>
          exact ⟨_, CallLayerFunction_layer G s d r layer lm args w t obj lay h hb hr hd hl⟩
  · intro out hok
    obtain ⟨r, t, hb, hr⟩ := CallDisplayFunction_ok_block s d dm args w out h hok
    have ht := PowerStateTransitionStart_trace s ⟨d, h⟩ r t hb
    refine ⟨r, resolvedSlot_of_block s ⟨d, h⟩ r t hb, ?_⟩
    cases hd : s.hwc_display_ ⟨r, hr⟩ with
    | none =>
      rw [CallDisplayFunction_unbound s d r dm args w t h hb hr hd] at hok
      cases hok
      rcases ht with ht | ht <;> subst ht <;>
        simp [opLocks, slotsRead, HeldThroughout, heldAtReturn, heldAfter, Event.isGuarded]
    | some obj =>
      rw [CallDisplayFunction_bound s d r dm args w t obj h hb hr hd] at hok
      cases hok
      rcases ht with ht | ht <;> subst ht <;>
        simp [opLocks, slotsRead, HeldThroughout, heldAtReturn, heldAfter, Event.isGuarded]
  · intro out hok
    obtain ⟨r, t, hb, hr⟩ := CallLayerFunction_ok_block G s d layer lm args w out h hok
    have ht := PowerStateTransitionStart_trace s ⟨d, h⟩ r t hb
    refine ⟨r, resolvedSlot_of_block s ⟨d, h⟩ r t hb, ?_⟩
    cases hd : s.hwc_display_ ⟨r, hr⟩ with
    | none =>
      rw [CallLayerFunction_unbound G s d r layer lm args w t h hb hr hd] at hok
      cases hok
      rcases ht with ht | ht <;> subst ht <;>
        simp [opLocks, slotsRead, HeldThroughout, heldAtReturn, heldAfter, Event.isGuarded]
    | some obj =>
      cases hl : G obj layer w with
      | none =>
        rw [CallLayerFunction_no_layer G s d r layer lm args w t obj h hb hr hd hl] at hok
        cases hok
        rcases ht with ht | ht <;> subst ht <;>
          simp [opLocks, slotsRead, HeldThroughout, heldAtReturn, heldAfter, Event.isGuarded]
      | some lay =>
        rw [CallLayerFunction_layer G s d r layer lm args w t obj lay h hb hr hd hl] at hok
        cases hok
        rcases ht with ht | ht <;> subst ht <;>
          simp [opLocks, slotsRead, HeldThroughout, heldAtReturn, heldAfter, Event.isGuarded]

/-- Witness of C11 on the sample session, at display 0 (resolved to slot 2) and at layer 9,
which display 102 does not have: the call returns on the `BadLayer` path. -/
theorem one_operation_lock_held_and_released_witness :
    (0 < 3 ∧ sampleSession.aliasUsable ⟨0, by decide⟩ = true) ∧
    (∃ out : Outcome 3 Nat Nat Nat Nat,
      sampleSession.CallDisplayFunction 0 sampleMember 5 0 = .ok out ∧
      ∃ r, sampleSession.resolvedSlot ⟨0, by decide⟩ = some r ∧ opLocks out.trace = [r] ∧
        slotsRead out.trace ≠ [] ∧
        HeldThroughout (.locker_ r) [] out.trace = true ∧ heldAtReturn [] out.trace = []) ∧
    (∃ out : Outcome 3 Nat Nat Nat Nat,
      CallLayerFunction sampleGetHWCLayer sampleSession 0 9 sampleMember 5 0 = .ok out ∧
      ∃ r, sampleSession.resolvedSlot ⟨0, by decide⟩ = some r ∧ opLocks out.trace = [r] ∧
        slotsRead out.trace ≠ [] ∧
        HeldThroughout (.locker_ r) [] out.trace = true ∧ heldAtReturn [] out.trace = []) :=
  have key := one_operation_lock_held_and_released sampleGetHWCLayer sampleSession 0 9
    sampleMember sampleMember 5 0 (by decide)
  ⟨⟨by decide, rfl⟩,
   (key.1 rfl).1.imp (fun out hok => ⟨hok, key.2.1 out hok⟩),
   (key.1 rfl).2.imp (fun out hok => ⟨hok, key.2.2 out hok⟩)⟩

/-! ## Validation failures -/

/-- C12, as stated, fails on the bad-layer half: on the sample session the call of
`CallLayerFunction` on display 0 with layer 9, which does not resolve, returns `BadLayer` after
it has taken both locks and read the transition flag, the alias map and the slot table. -/
theorem bad_layer_found_under_the_locks :
    ∃ out : Outcome 3 Nat Nat Nat Nat,
      CallLayerFunction sampleGetHWCLayer sampleSession 0 9 sampleMember 5 0 = .ok out ∧
      out.status = .BadLayer ∧
      lockEvents out.trace = [.acquire (.power_state_ 0), .release (.power_state_ 0),
        .acquire (.locker_ 2), .release (.locker_ 2)] ∧
      flagsRead out.trace = [0] ∧ aliasLookups out.trace = [0] ∧ slotsRead out.trace = [2, 2] :=
  ⟨_, rfl, rfl, rfl, rfl, rfl, rfl⟩

/-- C12, amended: a display id out of range short-circuits before touching shared state, in
every session and for every layer id: `CallDisplayFunction` and `CallLayerFunction` return
`BadDisplay` with no lock acquired and no read of the slot table, the alias map or the
transition flags. A layer id that does not resolve is found only under the locks:
`CallLayerFunction` returns `BadLayer` after taking and releasing `power_state_[d]` and
`locker_[r]`, reading `power_state_transition_[d]` (and looking `d` up in the alias map exactly
when that flag is set) and `hwc_display_[r]`, and looking the layer up once, without invoking
the member function and without changing the session fields or the state of the objects. -/
theorem validation_failures (G : D → LayerId → W → Option L)
    (s : HWCSession kNumDisplays D)
    (dm : D → A → W → HWC3.Error × W) (lm : L → A → W → HWC3.Error × W) (args : A) (w : W) :
    (∀ display : Display, ¬ display < kNumDisplays →
      ∃ out : Outcome kNumDisplays D L A W,
        s.CallDisplayFunction display dm args w = .ok out ∧ out.status = .BadDisplay ∧
        lockEvents out.trace = [] ∧ flagsRead out.trace = [] ∧ aliasLookups out.trace = [] ∧
        slotsRead out.trace = [] ∧ out.trace = [] ∧ out.session = s ∧ out.world = w) ∧
    (∀ (display : Display) (layer : LayerId), ¬ display < kNumDisplays →
      ∃ out : Outcome kNumDisplays D L A W,
        CallLayerFunction G s display layer lm args w = .ok out ∧ out.status = .BadDisplay ∧
        lockEvents out.trace = [] ∧ flagsRead out.trace = [] ∧ aliasLookups out.trace = [] ∧
        slotsRead out.trace = [] ∧ out.trace = [] ∧ out.session = s ∧ out.world = w) ∧
    (∀ (d r : Display) (layer : LayerId) (obj : D) (h : d < kNumDisplays),
      s.resolvedSlot ⟨d, h⟩ = some r → ∀ hr : r < kNumDisplays,
      s.hwc_display_ ⟨r, hr⟩ = some obj → G obj layer w = none →
      ∃ out : Outcome kNumDisplays D L A W,
        CallLayerFunction G s d layer lm args w = .ok out ∧ out.status = .BadLayer ∧
        lockEvents out.trace = [.acquire (.power_state_ d), .release (.power_state_ d),
          .acquire (.locker_ r), .release (.locker_ r)] ∧
        flagsRead out.trace = [d] ∧
        aliasLookups out.trace = (if s.power_state_transition_ ⟨d, h⟩ = true then [d] else []) ∧
        slotsRead out.trace = [r, r] ∧
        layersLooked out.trace = [(obj, layer)] ∧ layersInvoked out.trace = [] ∧
        out.session = s ∧ out.world = w) := by
  refine ⟨?_, ?_, ?_⟩
  · intro display hbad
    exact ⟨_, CallDisplayFunction_ge s display dm args w (Nat.le_of_not_lt hbad),
      rfl, rfl, rfl, rfl, rfl, rfl, rfl, rfl⟩
  · intro display layer hbad
    exact ⟨_, CallLayerFunction_ge G s display layer lm args w (Nat.le_of_not_lt hbad),
      rfl, rfl, rfl, rfl, rfl, rfl, rfl, rfl⟩
  · intro d r layer obj h hres hr hd hl
    cases hf : s.power_state_transition_ ⟨d, h⟩
    · have hrd : r = d := by
        rcases (resolvedSlot_eq_some_iff s ⟨d, h⟩ r).mp hres with hc | hc
        · exact hc.2
        · rw [hf] at hc
          cases hc.1
      subst hrd
      have hb := PowerStateTransitionStart_clear s ⟨r, h⟩ hf
      refine ⟨_, CallLayerFunction_no_layer G s r r layer lm args w _ obj h hb hr hd hl, rfl, ?_⟩
      simp [lockEvents, flagsRead, aliasLookups, slotsRead, layersLooked, layersInvoked]
    · have hm : s.map_hwc_display_ d = some r := by
        rcases (resolvedSlot_eq_some_iff s ⟨d, h⟩ r).mp hres with hc | hc
        · rw [hf] at hc
          cases hc.1
        · exact hc.2
      have hb := PowerStateTransitionStart_set s ⟨d, h⟩ r hf hm
      refine ⟨_, CallLayerFunction_no_layer G s d r layer lm args w _ obj h hb hr hd hl, rfl, ?_⟩
      simp [lockEvents, flagsRead, aliasLookups, slotsRead, layersLooked, layersInvoked]

/-- Witness of the amended C12 on the sample sessions. Display id 3 is out of range, whether
or not the layer asked for exists on some display (layer 1 does) and also in a session with no
display bound to any slot; display 0 of `sampleSession` is in a power-state transition and
resolves to slot 2, whose display 102 has no layer 9; display 2 is in no transition. -/
theorem validation_failures_witness :
    (¬ 3 < 3 ∧ 0 < 3 ∧ sampleSession.resolvedSlot ⟨0, by decide⟩ = some 2 ∧
      sampleSession.hwc_display_ ⟨2, by decide⟩ = some 102 ∧
      sampleGetHWCLayer 102 9 0 = none ∧ sampleGetHWCLayer 102 1 0 = some 1021 ∧
      sampleSession.resolvedSlot ⟨2, by decide⟩ = some 2) ∧
    (∃ out : Outcome 3 Nat Nat Nat Nat,
      sampleSession.CallDisplayFunction 3 sampleMember 5 0 = .ok out ∧
      out.status = .BadDisplay ∧ out.trace = []) ∧
    (∃ out : Outcome 3 Nat Nat Nat Nat,
      CallLayerFunction sampleGetHWCLayer sampleSession 3 1 sampleMember 5 0 = .ok out ∧
      out.status = .BadDisplay ∧ out.trace = []) ∧
    (∃ out : Outcome 3 Nat Nat Nat Nat,
      CallLayerFunction sampleGetHWCLayer sampleSessionUnbound 3 1 sampleMember 5 0 = .ok out ∧
      out.status = .BadDisplay ∧ out.trace = []) ∧
    (∃ out : Outcome 3 Nat Nat Nat Nat,
      CallLayerFunction sampleGetHWCLayer sampleSession 0 9 sampleMember 5 0 = .ok out ∧
      out.status = .BadLayer ∧ flagsRead out.trace = [0] ∧ aliasLookups out.trace = [0] ∧
      layersInvoked out.trace = [] ∧ out.world = 0) ∧
    (∃ out : Outcome 3 Nat Nat Nat Nat,
      CallLayerFunction sampleGetHWCLayer sampleSession 2 9 sampleMember 5 0 = .ok out ∧
      out.status = .BadLayer ∧ flagsRead out.trace = [2] ∧ aliasLookups out.trace = [] ∧
      layersInvoked out.trace = [] ∧ out.world = 0) :=
  have key := validation_failures sampleGetHWCLayer sampleSession sampleMember sampleMember 5 0
  have keyU := validation_failures sampleGetHWCLayer sampleSessionUnbound sampleMember
    sampleMember 5 0
  ⟨⟨by decide, by decide, rfl, rfl, rfl, rfl, rfl⟩,
   (key.1 3 (by decide)).imp (fun _ ho => ⟨ho.1, ho.2.1, ho.2.2.2.2.2.2.1⟩),
   (key.2.1 3 1 (by decide)).imp (fun _ ho => ⟨ho.1, ho.2.1, ho.2.2.2.2.2.2.1⟩),
   (keyU.2.1 3 1 (by decide)).imp (fun _ ho => ⟨ho.1, ho.2.1, ho.2.2.2.2.2.2.1⟩),
   (key.2.2 0 2 9 102 (by decide) rfl (by decide) rfl rfl).imp
     (fun _ ho => ⟨ho.1, ho.2.1, ho.2.2.2.1, ho.2.2.2.2.1, ho.2.2.2.2.2.2.2.1,
       ho.2.2.2.2.2.2.2.2.2⟩),
   (key.2.2 2 2 9 102 (by decide) rfl (by decide) rfl rfl).imp
     (fun _ ho => ⟨ho.1, ho.2.1, ho.2.2.2.1, ho.2.2.2.2.1, ho.2.2.2.2.2.2.2.1,
       ho.2.2.2.2.2.2.2.2.2⟩)⟩

/-! ## Slot metadata and capture nodes -/

/-- C13: `DisplayMapInfo::Reset` never changes the client-visible id: for every `DisplayMapInfo`
value `m`, the `client_id` after `Reset` is the `client_id` before it. -/
theorem DisplayMapInfo.Reset_client_id {DisplayType : Type} (kDisplayTypeMax : DisplayType)
    (m : DisplayMapInfo DisplayType) :
    (DisplayMapInfo.Reset kDisplayTypeMax m).client_id = m.client_id := by
  cases m
  rfl

/-- C14: `DisplayMapInfo::Reset` returns a slot to the unbound state: for every `DisplayMapInfo`
value `m`, after `Reset` the device id `sdm_id` is `-1`, `disp_type` is `kDisplayTypeMax` and
`test_pattern` is `false`, and these are the values of the three fields in a default-constructed
`DisplayMapInfo`. -/
theorem DisplayMapInfo.Reset_unbound {DisplayType : Type} (kNumDisplays : Nat)
    (kDisplayTypeMax : DisplayType) (m : DisplayMapInfo DisplayType) :
    ((DisplayMapInfo.Reset kDisplayTypeMax m).sdm_id = -1 ∧
      (DisplayMapInfo.Reset kDisplayTypeMax m).disp_type = kDisplayTypeMax ∧
      (DisplayMapInfo.Reset kDisplayTypeMax m).test_pattern = false) ∧
    ((DisplayMapInfo.Reset kDisplayTypeMax m).sdm_id =
        (DisplayMapInfo.ctor kNumDisplays kDisplayTypeMax).sdm_id ∧
      (DisplayMapInfo.Reset kDisplayTypeMax m).disp_type =
        (DisplayMapInfo.ctor kNumDisplays kDisplayTypeMax).disp_type ∧
      (DisplayMapInfo.Reset kDisplayTypeMax m).test_pattern =
        (DisplayMapInfo.ctor kNumDisplays kDisplayTypeMax).test_pattern) := by
  cases m
  exact ⟨⟨rfl, rfl, rfl⟩, rfl, rfl, rfl⟩

/-- C15: every CWB `QueueNode` starts in the non-terminal state: for all constructor arguments
(callback, capture configuration, buffer, display id, correlation id) the constructed node has
`notified_status = kCwbNotifiedNone`, which differs from `kCwbNotifiedSuccess` and from
`kCwbNotifiedFailure` (as enumerators and in value), has `request_completed = false`, and
stores the display id and the correlation id `handle_id` it was given. -/
theorem CWB.QueueNode.ctor_non_terminal {Callback CwbConfig Buffer : Type} (cb : Callback)
    (cwb_conf : CwbConfig) (buf : Buffer) (disp_type : Display) (buf_id : Nat) :
    (CWB.QueueNode.ctor cb cwb_conf buf disp_type buf_id).notified_status =
      .kCwbNotifiedNone ∧
    (CWB.QueueNode.ctor cb cwb_conf buf disp_type buf_id).notified_status ≠
      .kCwbNotifiedSuccess ∧
    (CWB.QueueNode.ctor cb cwb_conf buf disp_type buf_id).notified_status ≠
      .kCwbNotifiedFailure ∧
    (CWB.QueueNode.ctor cb cwb_conf buf disp_type buf_id).notified_status.value ≠
      CWB.CWBNotifiedStatus.kCwbNotifiedSuccess.value ∧
    (CWB.QueueNode.ctor cb cwb_conf buf disp_type buf_id).notified_status.value ≠
      CWB.CWBNotifiedStatus.kCwbNotifiedFailure.value ∧
    (CWB.QueueNode.ctor cb cwb_conf buf disp_type buf_id).request_completed = false ∧
    (CWB.QueueNode.ctor cb cwb_conf buf disp_type buf_id).display_type = disp_type ∧
    (CWB.QueueNode.ctor cb cwb_conf buf disp_type buf_id).handle_id = buf_id := by
  refine ⟨rfl, ?_, ?_, ?_, ?_, rfl, rfl, rfl⟩
  · intro hc
    cases hc
  · intro hc
    cases hc
  · simp [CWB.QueueNode.ctor, CWB.CWBNotifiedStatus.value]
  · simp [CWB.QueueNode.ctor, CWB.CWBNotifiedStatus.value]

/-! ## One substitution per call -/

/-- C16: alias redirection is a single step, not a chain: for every in-range display id `d`
with `power_state_transition_[d]` set and alias `a = map_hwc_display_[d]`, whatever the flag and
the alias of slot `a` are, `CallDisplayFunction` and `CallLayerFunction` resolve to slot `a` and
lock `locker_[a]`; the one flag read and the one map lookup of the call are those of `d`, so the
flag and the alias of `a` are not consulted when `a` is another slot, and no second substitution
happens. -/
theorem alias_followed_once (G : D → LayerId → W → Option L)
    (s : HWCSession kNumDisplays D) (d a : Display) (layer : LayerId)
    (dm : D → A → W → HWC3.Error × W) (lm : L → A → W → HWC3.Error × W) (args : A) (w : W)
    (h : d < kNumDisplays) (hf : s.power_state_transition_ ⟨d, h⟩ = true)
    (hm : s.map_hwc_display_ d = some a) (ha : a < kNumDisplays) :
    s.resolvedSlot ⟨d, h⟩ = some a ∧
    (∃ out : Outcome kNumDisplays D L A W,
      s.CallDisplayFunction d dm args w = .ok out ∧
      opLocks out.trace = [a] ∧ (∀ i ∈ slotsRead out.trace, i = a) ∧
      flagsRead out.trace = [d] ∧ aliasLookups out.trace = [d] ∧
      (a ≠ d → a ∉ flagsRead out.trace ∧ a ∉ aliasLookups out.trace)) ∧
    (∃ out : Outcome kNumDisplays D L A W,
      CallLayerFunction G s d layer lm args w = .ok out ∧
      opLocks out.trace = [a] ∧ (∀ i ∈ slotsRead out.trace, i = a) ∧
      flagsRead out.trace = [d] ∧ aliasLookups out.trace = [d] ∧
      (a ≠ d → a ∉ flagsRead out.trace ∧ a ∉ aliasLookups out.trace)) := by
  have hb := PowerStateTransitionStart_set s ⟨d, h⟩ a hf hm
  refine ⟨resolvedSlot_of_block s ⟨d, h⟩ a _ hb, ?_, ?_⟩
  · cases hd : s.hwc_display_ ⟨a, ha⟩ with
    | none =>
      refine ⟨_, CallDisplayFunction_unbound s d a dm args w _ h hb ha hd, ?_⟩
      simp [opLocks, slotsRead, flagsRead, aliasLookups]
    | some obj =>
      refine ⟨_, CallDisplayFunction_bound s d a dm args w _ obj h hb ha hd, ?_⟩
      simp [opLocks, slotsRead, flagsRead, aliasLookups]
  · cases hd : s.hwc_display_ ⟨a, ha⟩ with
    | none =>
      refine ⟨_, CallLayerFunction_unbound G s d a layer lm args w _ h hb ha hd, ?_⟩
      simp [opLocks, slotsRead, flagsRead, aliasLookups]
    | some obj =>
      cases hl : G obj layer w with
      | none =>
        refine ⟨_, CallLayerFunction_no_layer G s d a layer lm args w _ obj h hb ha hd hl, ?_⟩
        simp [opLocks, slotsRead, flagsRead, aliasLookups]
      | some lay =>
        refine ⟨_, CallLayerFunction_layer G s d a layer lm args w _ obj lay h hb ha hd hl, ?_⟩
        simp [opLocks, slotsRead, flagsRead, aliasLookups]

/-- Witness of C16 on the sample session in which slot 0 is paired with slot 2 and slot 2, also
in a power-state transition, with slot 1: the calls on display 0 work on slot 2 and invoke
display 102, not display 101 of slot 1. -/
theorem alias_followed_once_witness :
    (0 < 3 ∧ sampleSessionChain.power_state_transition_ ⟨0, by decide⟩ = true ∧
      sampleSessionChain.map_hwc_display_ 0 = some 2 ∧ 2 < 3 ∧
      sampleSessionChain.power_state_transition_ ⟨2, by decide⟩ = true ∧
      sampleSessionChain.map_hwc_display_ 2 = some 1) ∧
    sampleSessionChain.resolvedSlot ⟨0, by decide⟩ = some 2 ∧
    (∃ out : Outcome 3 Nat Nat Nat Nat,
      sampleSessionChain.CallDisplayFunction 0 sampleMember 5 0 = .ok out ∧
      opLocks out.trace = [2] ∧ flagsRead out.trace = [0] ∧ aliasLookups out.trace = [0]) ∧
    (∃ out : Outcome 3 Nat Nat Nat Nat,
      CallLayerFunction sampleGetHWCLayer sampleSessionChain 0 1 sampleMember 5 0 = .ok out ∧
      opLocks out.trace = [2] ∧ flagsRead out.trace = [0] ∧ aliasLookups out.trace = [0]) :=
  have key := alias_followed_once sampleGetHWCLayer sampleSessionChain 0 2 1 sampleMember
    sampleMember 5 0 (by decide) rfl rfl (by decide)
  ⟨⟨by decide, rfl, rfl, by decide, rfl, rfl⟩, key.1,
   key.2.1.imp (fun _ ho => ⟨ho.1, ho.2.1, ho.2.2.2.1, ho.2.2.2.2.1⟩),
   key.2.2.imp (fun _ ho => ⟨ho.1, ho.2.1, ho.2.2.2.1, ho.2.2.2.2.1⟩)⟩

/-! ## What the outcome of a call depends on -/

/-- C17: the outcome of a dispatched call depends only on the slot it resolves to: for every
in-range display id `d` and any two session states that agree on `power_state_transition_[d]`,
on the entry of `map_hwc_display_` for `d` and on the display object bound at the resolved slot,
`CallDisplayFunction` (and `CallLayerFunction`, for the same layer id) returns the same status,
invokes the same operation and leaves the same events and object state in both, whatever the
flags, aliases and bound objects of the other slots are; where the call is undefined in one
state it is undefined in the other. -/
theorem outcome_depends_on_resolved_slot (G : D → LayerId → W → Option L)
    (s1 s2 : HWCSession kNumDisplays D) (d : Display) (layer : LayerId)
    (dm : D → A → W → HWC3.Error × W) (lm : L → A → W → HWC3.Error × W) (args : A) (w : W)
    (h : d < kNumDisplays)
    (hflag : s1.power_state_transition_ ⟨d, h⟩ = s2.power_state_transition_ ⟨d, h⟩)
    (hmap : s1.map_hwc_display_ d = s2.map_hwc_display_ d)
    (hobj : ∀ r, s1.resolvedSlot ⟨d, h⟩ = some r → ∀ hr : r < kNumDisplays,
      s1.hwc_display_ ⟨r, hr⟩ = s2.hwc_display_ ⟨r, hr⟩) :
    ((s1.CallDisplayFunction d dm args w :
        Except Fault (Outcome kNumDisplays D L A W)).map Outcome.observed =
      (s2.CallDisplayFunction d dm args w :
        Except Fault (Outcome kNumDisplays D L A W)).map Outcome.observed) ∧
    ((CallLayerFunction G s1 d layer lm args w).map Outcome.observed =
      (CallLayerFunction G s2 d layer lm args w).map Outcome.observed) := by
  have hbeq := PowerStateTransitionStart_congr s1 s2 ⟨d, h⟩ hflag hmap
  cases hb2 : s2.PowerStateTransitionStart ⟨d, h⟩ with
  | error f =>
    have hb1 := hbeq.trans hb2
    constructor
    · rw [CallDisplayFunction_block_error s1 d dm args w f h hb1,
        CallDisplayFunction_block_error s2 d dm args w f h hb2]
    · rw [CallLayerFunction_block_error G s1 d layer lm args w f h hb1,
        CallLayerFunction_block_error G s2 d layer lm args w f h hb2]
  | ok p =>
    obtain ⟨r, t⟩ := p
    have hb1 := hbeq.trans hb2
    by_cases hr : r < kNumDisplays
    · have ho := hobj r (resolvedSlot_of_block s1 ⟨d, h⟩ r t hb1) hr
      cases hd2 : s2.hwc_display_ ⟨r, hr⟩ with
      | none =>
        have hd1 := ho.trans hd2
        constructor
        · rw [CallDisplayFunction_unbound s1 d r dm args w t h hb1 hr hd1,
            CallDisplayFunction_unbound s2 d r dm args w t h hb2 hr hd2]
          rfl
        · rw [CallLayerFunction_unbound G s1 d r layer lm args w t h hb1 hr hd1,
            CallLayerFunction_unbound G s2 d r layer lm args w t h hb2 hr hd2]
          rfl
      | some obj =>
        have hd1 := ho.trans hd2
        constructor
        · rw [CallDisplayFunction_bound s1 d r dm args w t obj h hb1 hr hd1,
            CallDisplayFunction_bound s2 d r dm args w t obj h hb2 hr hd2]
          rfl
        · cases hl : G obj layer w with
          | none =>
            rw [CallLayerFunction_no_layer G s1 d r layer lm args w t obj h hb1 hr hd1 hl,
              CallLayerFunction_no_layer G s2 d r layer lm args w t obj h hb2 hr hd2 hl]
            rfl
          | some lay =>
            rw [CallLayerFunction_layer G s1 d r layer lm args w t obj lay h hb1 hr hd1 hl,
              CallLayerFunction_layer G s2 d r layer lm args w t obj lay h hb2 hr hd2 hl]
            rfl
    · constructor
      · rw [CallDisplayFunction_block_past s1 d r dm args w t h hb1 hr,
          CallDisplayFunction_block_past s2 d r dm args w t h hb2 hr]
      · rw [CallLayerFunction_block_past G s1 d r layer lm args w t h hb1 hr,
          CallLayerFunction_block_past G s2 d r layer lm args w t h hb2 hr]

/-- Witness of C17 on two sample sessions that agree on the flag and the pair of slot 0 and on
display 102 bound at the resolved slot 2, and differ on what is bound at slots 0 and 1 and on
the flag and the pair of slot 1. -/
theorem outcome_depends_on_resolved_slot_witness :
    (0 < 3 ∧
      sampleSession.power_state_transition_ ⟨0, by decide⟩ =
        sampleSessionElsewhere.power_state_transition_ ⟨0, by decide⟩ ∧
      sampleSession.map_hwc_display_ 0 = sampleSessionElsewhere.map_hwc_display_ 0 ∧
      sampleSession.resolvedSlot ⟨0, by decide⟩ = some 2 ∧
      sampleSession.hwc_display_ ⟨2, by decide⟩ =
        sampleSessionElsewhere.hwc_display_ ⟨2, by decide⟩ ∧
      sampleSession.hwc_display_ ⟨0, by decide⟩ ≠
        sampleSessionElsewhere.hwc_display_ ⟨0, by decide⟩ ∧
      sampleSession.power_state_transition_ ⟨1, by decide⟩ ≠
        sampleSessionElsewhere.power_state_transition_ ⟨1, by decide⟩) ∧
    ((sampleSession.CallDisplayFunction 0 sampleMember 5 0 :
        Except Fault (Outcome 3 Nat Nat Nat Nat)).map Outcome.observed =
      (sampleSessionElsewhere.CallDisplayFunction 0 sampleMember 5 0 :
        Except Fault (Outcome 3 Nat Nat Nat Nat)).map Outcome.observed) ∧
    ((CallLayerFunction sampleGetHWCLayer sampleSession 0 1 sampleMember 5 0).map
        Outcome.observed =
      (CallLayerFunction sampleGetHWCLayer sampleSessionElsewhere 0 1 sampleMember 5 0).map
        Outcome.observed) :=
  ⟨⟨by decide, rfl, rfl, rfl, rfl, by decide, by decide⟩,
   outcome_depends_on_resolved_slot sampleGetHWCLayer sampleSession sampleSessionElsewhere 0 1
     sampleMember sampleMember 5 0 (by decide) rfl rfl
     (fun r hres hr => by
       have h2 : sampleSession.resolvedSlot ⟨0, by decide⟩ = some 2 := rfl
       rw [h2] at hres
       cases hres
       rfl)⟩

/-! ## Slots without a client id -/

/-- Any number of calls of `Reset` keeps the `client_id`. -/
theorem DisplayMapInfo.Reset_iterate_client_id {DisplayType : Type}
    (kDisplayTypeMax : DisplayType) (n : Nat) (m : DisplayMapInfo DisplayType) :
    ((DisplayMapInfo.Reset kDisplayTypeMax)^[n] m).client_id = m.client_id := by
  induction n with
  | zero => rfl
  | succ k ih =>
    rw [Function.iterate_succ_apply']
    exact ih

/-- C18: a slot that was never assigned a client id cannot be addressed: the `client_id` of a
default-constructed `DisplayMapInfo` is `kNumDisplays`, it is still `kNumDisplays` after any
number `n` of `Reset` calls, and `CallDisplayFunction` and `CallLayerFunction` given that id
return `BadDisplay`, with no event and nothing changed, in every session state. -/
theorem unassigned_slot_not_addressable {DisplayType : Type} (kDisplayTypeMax : DisplayType)
    (n : Nat) (G : D → LayerId → W → Option L) (s : HWCSession kNumDisplays D)
    (layer : LayerId) (dm : D → A → W → HWC3.Error × W) (lm : L → A → W → HWC3.Error × W)
    (args : A) (w : W) :
    (DisplayMapInfo.ctor kNumDisplays kDisplayTypeMax).client_id = kNumDisplays ∧
    ((DisplayMapInfo.Reset kDisplayTypeMax)^[n]
      (DisplayMapInfo.ctor kNumDisplays kDisplayTypeMax)).client_id = kNumDisplays ∧
    (∃ out : Outcome kNumDisplays D L A W,
      s.CallDisplayFunction ((DisplayMapInfo.Reset kDisplayTypeMax)^[n]
        (DisplayMapInfo.ctor kNumDisplays kDisplayTypeMax)).client_id dm args w = .ok out ∧
      out.status = .BadDisplay ∧ out.trace = [] ∧ out.session = s ∧ out.world = w) ∧
    (∃ out : Outcome kNumDisplays D L A W,
      CallLayerFunction G s ((DisplayMapInfo.Reset kDisplayTypeMax)^[n]
        (DisplayMapInfo.ctor kNumDisplays kDisplayTypeMax)).client_id layer lm args w =
        .ok out ∧
      out.status = .BadDisplay ∧ out.trace = [] ∧ out.session = s ∧ out.world = w) := by
  have hid : ((DisplayMapInfo.Reset kDisplayTypeMax)^[n]
      (DisplayMapInfo.ctor kNumDisplays kDisplayTypeMax)).client_id = kNumDisplays :=
    DisplayMapInfo.Reset_iterate_client_id kDisplayTypeMax n _
  refine ⟨rfl, hid, ?_, ?_⟩
  · rw [hid]
    exact ⟨_, CallDisplayFunction_ge s kNumDisplays dm args w (Nat.le_refl _),
      rfl, rfl, rfl, rfl⟩
  · rw [hid]
    exact ⟨_, CallLayerFunction_ge G s kNumDisplays layer lm args w (Nat.le_refl _),
      rfl, rfl, rfl, rfl⟩

end HWCSession

end sdm
